import Mathlib

/-!
# Round-robin kernel core (`hilevel.c`), two variants

A shallow embedding of the two `hilevel.c` files of the repository:

* `lab3`: a process table of two PCBs, cursor `executing` ranging over `0, 1`,
  a trap handler that carries a request id (yield / write / unsupported);
* `cw1`: a process table of three PCBs, cursor `executing` ranging over
  `3, 4, 5`, a timer interrupt handler and a trap handler that is the write
  service.

Machine words (`uint32_t`) are natural numbers; conversions to and from `int`
are written out with `% 2 ^ 32`.  The globals `pcb` and `executing`, the device
registers and the sequence of device accesses form one explicit state record
per variant; the live context `ctx_t* ctx` is passed in and returned.

Each state also carries `steps`, the steps of the handlers in program order:
every device access, and between them the steps that touch `pcb` and
`executing` (the initialisation of a PCB, a call of the scheduler from a
handler, the restore at the end of reset).  The scheduler itself adds no
step; the handler that calls it records the call.
-/

/-! ## Data model (`hilevel.h`) -/

/-- Modelled from the spec: the header `hilevel.h` declaring `status_t` is not
among the sources.  The spec gives `status ∈ {READY, EXECUTING}`; these are
also the only two enumerators the source files use. -/
inductive status_t
  | STATUS_READY
  | STATUS_EXECUTING
  deriving DecidableEq, Repr

/-- Modelled from the spec: the header `hilevel.h` declaring `ctx_t` is not
among the sources.  The spec gives a general-register file, program counter,
stack pointer and processor status word; the sources use the fields `cpsr`,
`pc`, `gpr[0..2]` and `sp`.  The register file is `r0 .. r12` of the ARM
core, and the link register `lr` completes the banked user-mode state.  Every
field is a `uint32_t`. -/
structure ctx_t where
  cpsr : Nat
  pc   : Nat
  gpr  : Fin 13 → Nat
  sp   : Nat
  lr   : Nat
  deriving DecidableEq

/-- Modelled from the spec: `pcb_t` of the missing `hilevel.h`, a record of
identity (`pid`, an `int`), status and embedded context. -/
structure pcb_t where
  pid    : Int
  status : status_t
  ctx    : ctx_t
  deriving DecidableEq

/-- Device registers the handlers touch: `TIMER0->Timer1Load`, `Timer1Ctrl`,
`Timer1IntClr`; `GICC0->PMR`, `CTLR`, `IAR`, `EOIR`; `GICD0->ISENABLER1`,
`CTLR`. -/
inductive reg_t
  | TIMER0_Timer1Load
  | TIMER0_Timer1Ctrl
  | TIMER0_Timer1IntClr
  | GICC0_PMR
  | GICC0_CTLR
  | GICC0_IAR
  | GICC0_EOIR
  | GICD0_ISENABLER1
  | GICD0_CTLR
  deriving DecidableEq, Repr

/-- One externally visible action of a handler, in program order: a read of a
device register (with the value read), a write of a device register, a call
`PL011_putc( UART0, c, true )`, or the call `int_enable_irq()`. -/
inductive event_t
  | rd (r : reg_t) (v : Nat)
  | wr (r : reg_t) (v : Nat)
  | putc (c : Nat)
  | int_enable_irq
  deriving DecidableEq, Repr

/-- One step of a handler, in program order: a device access or a call
`int_enable_irq()` (`dev`); the block of `hilevel_handler_rst` that
initialises `pcb[ i ]`, from its `memset` to the assignment of `ctx.sp`
(`pcb_init i`); a call `scheduler( ctx )` (`call_scheduler`); or the tail of
`hilevel_handler_rst` that restores `pcb[ i ]`, namely the `memcpy` into the
live context and the assignments of `pcb[ i ].status` and `executing`
(`restore i`). -/
inductive step_t
  | dev (e : event_t)
  | pcb_init (i : Nat)
  | call_scheduler
  | restore (i : Nat)
  deriving DecidableEq, Repr

/-- The value `( int )( v )` of a `uint32_t` register value `v`. -/
def to_int (v : Nat) : Int :=
  if v % 2 ^ 32 < 2 ^ 31 then ((v % 2 ^ 32 : Nat) : Int) else ((v % 2 ^ 32 : Nat) : Int) - 2 ^ 32

/-- The value stored by assigning the `int` `n` to a `uint32_t` lvalue. -/
def of_int (n : Int) : Nat :=
  (n % 2 ^ 32).toNat

/-- The call `memcpy( dst, src, sizeof( ctx_t ) )`: the whole context is replaced. -/
def memcpy_ctx ( _dst : ctx_t) (src : ctx_t) : ctx_t := src

/-- The assignment `pcb[ i ].ctx = c` (by `memcpy`) on a table of `N` PCBs. -/
def set_ctx {N : Nat} (pcb : Fin N → pcb_t) (i : Fin N) (c : ctx_t) : Fin N → pcb_t :=
  Function.update pcb i { pcb i with ctx := memcpy_ctx (pcb i).ctx c }

/-- The assignment `pcb[ i ].status = st` on a table of `N` PCBs. -/
def set_status {N : Nat} (pcb : Fin N → pcb_t) (i : Fin N) (st : status_t) : Fin N → pcb_t :=
  Function.update pcb i { pcb i with status := st }

/-- The block that initialises one PCB in `hilevel_handler_rst`:
`memset( &pcb[ i ], 0, sizeof( pcb_t ) )` followed by the assignments of
`pid`, `status = STATUS_READY`, `ctx.cpsr = 0x50`, `ctx.pc` and `ctx.sp`. -/
def pcb_init (pid : Int) (entry tos : Nat) : pcb_t :=
  { pid := pid
    status := status_t.STATUS_READY
    ctx := { cpsr := 0x50, pc := entry, gpr := fun _ => 0, sp := tos, lr := 0 } }

/-- The loop `for( int i = 0; i < n; i++ ) PL011_putc( UART0, *x++, true )`
with `k = n - i` iterations left, `x` the current value of the 32-bit pointer
and `mem` the byte stored at each address; the events are appended to the
trace in program order. -/
def putc_loop (mem : Nat → Nat) : Nat → Nat → List event_t → List event_t
  | 0,     _, tr => tr
  | k + 1, x, tr => putc_loop mem k ((x + 1) % 2 ^ 32) (tr ++ [event_t.putc (mem x)])

/-! ## Variant `lab3` (`src/lab3/lab3_files/kernel/hilevel.c`) -/

namespace lab3

/-- The link-time symbols `main_P1`, `tos_P1`, `main_P2`, `tos_P2`, as the
addresses `( uint32_t )( &main_P1 )` and so on. -/
structure symbols_t where
  main_P1 : Nat
  tos_P1  : Nat
  main_P2 : Nat
  tos_P2  : Nat

/-- The globals `pcb_t pcb[ 2 ]; int executing`, together with the device
accesses performed so far (`trace`) and the steps the handlers performed so
far, device accesses among them, in program order (`steps`). -/
structure state_t where
  pcb       : Fin 2 → pcb_t
  executing : Int
  trace     : List event_t
  steps     : List step_t

/-- The function `void scheduler( ctx_t* ctx )`. -/
def scheduler (s : state_t) (ctx : ctx_t) : state_t × ctx_t :=
  if s.executing = 0 then
    let pcb := set_ctx s.pcb 0 ctx
    let pcb := set_status pcb 0 status_t.STATUS_READY
    let ctx := memcpy_ctx ctx (pcb 1).ctx
    let pcb := set_status pcb 1 status_t.STATUS_EXECUTING
    ({ s with pcb := pcb, executing := 1 }, ctx)
  else if s.executing = 1 then
    let pcb := set_ctx s.pcb 1 ctx
    let pcb := set_status pcb 1 status_t.STATUS_READY
    let ctx := memcpy_ctx ctx (pcb 0).ctx
    let pcb := set_status pcb 0 status_t.STATUS_EXECUTING
    ({ s with pcb := pcb, executing := 0 }, ctx)
  else
    (s, ctx)

/-- The function `void hilevel_handler_rst( ctx_t* ctx )`. -/
def hilevel_handler_rst (sym : symbols_t) (s : state_t) (ctx : ctx_t) : state_t × ctx_t :=
  let pcb := Function.update s.pcb 0 (pcb_init 1 sym.main_P1 sym.tos_P1)
  let pcb := Function.update pcb 1 (pcb_init 2 sym.main_P2 sym.tos_P2)
  let ctx := memcpy_ctx ctx (pcb 0).ctx
  let pcb := set_status pcb 0 status_t.STATUS_EXECUTING
  ({ s with pcb := pcb, executing := 0,
            steps := s.steps ++ [step_t.pcb_init 0, step_t.pcb_init 1, step_t.restore 0] }, ctx)

/-- The function `void hilevel_handler_svc( ctx_t* ctx, uint32_t id )`; `mem` is the byte
stored at each address when the trap is taken. -/
def hilevel_handler_svc (mem : Nat → Nat) (s : state_t) (ctx : ctx_t) (id : Nat) :
    state_t × ctx_t :=
  match id with
  | 0x00 => scheduler { s with steps := s.steps ++ [step_t.call_scheduler] } ctx
  | 0x01 =>
    let x := ctx.gpr 1 % 2 ^ 32
    let n := to_int (ctx.gpr 2)
    let tr := putc_loop mem n.toNat x s.trace
    ({ s with trace := tr,
              steps := s.steps ++ (putc_loop mem n.toNat x []).map step_t.dev },
     { ctx with gpr := Function.update ctx.gpr 0 (of_int n) })
  | _ => (s, ctx)

/-- The states the kernel can be in: the state left by a reset, from any
prior state, followed by any sequence of scheduler and trap-handler calls,
each on an arbitrary live context. -/
inductive Reachable (sym : symbols_t) : state_t → Prop
  | rst (s : state_t) (ctx : ctx_t) : Reachable sym (hilevel_handler_rst sym s ctx).1
  | sched (s : state_t) (ctx : ctx_t) : Reachable sym s → Reachable sym (scheduler s ctx).1
  | svc (mem : Nat → Nat) (s : state_t) (ctx : ctx_t) (id : Nat) :
      Reachable sym s → Reachable sym (hilevel_handler_svc mem s ctx id).1

/-- The state after `k` further scheduler invocations, the `j`-th of them on
the live context `cs j`. -/
def run (cs : Nat → ctx_t) : Nat → state_t → state_t
  | 0,     s => s
  | k + 1, s => (scheduler (run cs k s) (cs k)).1

end lab3

/-! ## Variant `cw1` (`src/cw1/files/kernel/hilevel.c`) -/

namespace cw1

/-- The link-time symbols `main_P3`, `tos_P3`, ..., `tos_P5`, as the
addresses `( uint32_t )( &main_P3 )` and so on. -/
structure symbols_t where
  main_P3 : Nat
  tos_P3  : Nat
  main_P4 : Nat
  tos_P4  : Nat
  main_P5 : Nat
  tos_P5  : Nat

/-- The globals `pcb_t pcb[ 3 ]; int executing`, the contents of the device
registers, the device accesses performed so far (`trace`) and the steps the
handlers performed so far, device accesses among them, in program order
(`steps`). -/
structure state_t where
  pcb       : Fin 3 → pcb_t
  executing : Int
  regs      : reg_t → Nat
  trace     : List event_t
  steps     : List step_t

/-- A store `r = v` to a device register. -/
def reg_write (r : reg_t) (v : Nat) (s : state_t) : state_t :=
  { s with regs := Function.update s.regs r v, trace := s.trace ++ [event_t.wr r v],
           steps := s.steps ++ [step_t.dev (event_t.wr r v)] }

/-- A load from the device register `r` that returns `v`. -/
def reg_read (r : reg_t) (v : Nat) (s : state_t) : state_t :=
  { s with trace := s.trace ++ [event_t.rd r v],
           steps := s.steps ++ [step_t.dev (event_t.rd r v)] }

/-- A read-modify-write `r |= m` of a device register. -/
def reg_or (r : reg_t) (m : Nat) (s : state_t) : state_t :=
  { s with regs := Function.update s.regs r (s.regs r ||| m),
           trace := s.trace ++ [event_t.rd r (s.regs r), event_t.wr r (s.regs r ||| m)],
           steps := s.steps ++ [step_t.dev (event_t.rd r (s.regs r)),
                                step_t.dev (event_t.wr r (s.regs r ||| m))] }

/-- The call `int_enable_irq()`. -/
def int_enable_irq (s : state_t) : state_t :=
  { s with trace := s.trace ++ [event_t.int_enable_irq],
           steps := s.steps ++ [step_t.dev event_t.int_enable_irq] }

/-- The function `void scheduler(ctx_t* ctx)`. -/
def scheduler (s : state_t) (ctx : ctx_t) : state_t × ctx_t :=
  if s.executing = 3 then
    let pcb := set_ctx s.pcb 0 ctx
    let pcb := set_status pcb 0 status_t.STATUS_READY
    let ctx := memcpy_ctx ctx (pcb 1).ctx
    let pcb := set_status pcb 1 status_t.STATUS_EXECUTING
    ({ s with pcb := pcb, executing := 4 }, ctx)
  else if s.executing = 4 then
    let pcb := set_ctx s.pcb 1 ctx
    let pcb := set_status pcb 1 status_t.STATUS_READY
    let ctx := memcpy_ctx ctx (pcb 2).ctx
    let pcb := set_status pcb 2 status_t.STATUS_EXECUTING
    ({ s with pcb := pcb, executing := 5 }, ctx)
  else if s.executing = 5 then
    let pcb := set_ctx s.pcb 2 ctx
    let pcb := set_status pcb 2 status_t.STATUS_READY
    let ctx := memcpy_ctx ctx (pcb 0).ctx
    let pcb := set_status pcb 0 status_t.STATUS_EXECUTING
    ({ s with pcb := pcb, executing := 3 }, ctx)
  else
    (s, ctx)

/-- The timer set-up at the head of `hilevel_handler_rst` (lines 55-59). -/
def rst_timer (s : state_t) : state_t :=
  let s := reg_write reg_t.TIMER0_Timer1Load 0x00100000 s
  let s := reg_write reg_t.TIMER0_Timer1Ctrl 0x00000002 s
  let s := reg_or reg_t.TIMER0_Timer1Ctrl 0x00000040 s
  let s := reg_or reg_t.TIMER0_Timer1Ctrl 0x00000020 s
  reg_or reg_t.TIMER0_Timer1Ctrl 0x00000080 s

/-- The interrupt-controller set-up of `hilevel_handler_rst` (lines 61-64). -/
def rst_gic (s : state_t) : state_t :=
  let s := reg_write reg_t.GICC0_PMR 0x000000F0 s
  let s := reg_or reg_t.GICD0_ISENABLER1 0x00000010 s
  let s := reg_write reg_t.GICC0_CTLR 0x00000001 s
  reg_write reg_t.GICD0_CTLR 0x00000001 s

/-- The initialisation of the three PCBs in `hilevel_handler_rst` (lines
66-85). -/
def rst_pcbs (sym : symbols_t) (s : state_t) : state_t :=
  let pcb := Function.update s.pcb 0 (pcb_init 3 sym.main_P3 sym.tos_P3)
  let pcb := Function.update pcb 1 (pcb_init 4 sym.main_P4 sym.tos_P4)
  let pcb := Function.update pcb 2 (pcb_init 5 sym.main_P5 sym.tos_P5)
  { s with pcb := pcb,
           steps := s.steps ++ [step_t.pcb_init 0, step_t.pcb_init 1, step_t.pcb_init 2] }

/-- The tail of `hilevel_handler_rst` (lines 89-91): restore `pcb[ 0 ]`. -/
def rst_select (s : state_t) (ctx : ctx_t) : state_t × ctx_t :=
  let ctx := memcpy_ctx ctx (s.pcb 0).ctx
  let pcb := set_status s.pcb 0 status_t.STATUS_EXECUTING
  ({ s with pcb := pcb, executing := 3, steps := s.steps ++ [step_t.restore 0] }, ctx)

/-- The function `void hilevel_handler_rst(ctx_t* ctx)`. -/
def hilevel_handler_rst (sym : symbols_t) (s : state_t) (ctx : ctx_t) : state_t × ctx_t :=
  rst_select (int_enable_irq (rst_pcbs sym (rst_gic (rst_timer s)))) ctx

/-- The function `void hilevel_handler_irq(ctx_t* ctx)`.  `GIC_SOURCE_TIMER0` is the
constant of that name from the missing header `GIC.h`; `iar` is the value
the read of `GICC0->IAR` returns. -/
def hilevel_handler_irq ( GIC_SOURCE_TIMER0 : Nat) (iar : Nat) (s : state_t) (ctx : ctx_t) :
    state_t × ctx_t :=
  let id := iar
  let s := reg_read reg_t.GICC0_IAR iar s
  let r :=
    if id = GIC_SOURCE_TIMER0 then
      let r := scheduler { s with steps := s.steps ++ [step_t.call_scheduler] } ctx
      (reg_write reg_t.TIMER0_Timer1IntClr 0x01 r.1, r.2)
    else
      (s, ctx)
  (reg_write reg_t.GICC0_EOIR id r.1, r.2)

/-- The function `void hilevel_handler_svc(ctx_t* ctx)`; `mem` is the byte stored at each
address when the trap is taken. -/
def hilevel_handler_svc (mem : Nat → Nat) (s : state_t) (ctx : ctx_t) : state_t × ctx_t :=
  let x := ctx.gpr 1 % 2 ^ 32
  let n := to_int (ctx.gpr 2)
  let tr := putc_loop mem n.toNat x s.trace
  ({ s with trace := tr,
            steps := s.steps ++ (putc_loop mem n.toNat x []).map step_t.dev },
   { ctx with gpr := Function.update ctx.gpr 0 (of_int n) })

/-- The states the kernel can be in: the state left by a reset, from any
prior state, followed by any sequence of scheduler, interrupt-handler and
trap-handler calls, each on an arbitrary live context. -/
inductive Reachable (sym : symbols_t) ( GIC_SOURCE_TIMER0 : Nat) : state_t → Prop
  | rst (s : state_t) (ctx : ctx_t) :
      Reachable sym GIC_SOURCE_TIMER0 (hilevel_handler_rst sym s ctx).1
  | sched (s : state_t) (ctx : ctx_t) :
      Reachable sym GIC_SOURCE_TIMER0 s → Reachable sym GIC_SOURCE_TIMER0 (scheduler s ctx).1
  | irq (iar : Nat) (s : state_t) (ctx : ctx_t) :
      Reachable sym GIC_SOURCE_TIMER0 s →
      Reachable sym GIC_SOURCE_TIMER0 (hilevel_handler_irq GIC_SOURCE_TIMER0 iar s ctx).1
  | svc (mem : Nat → Nat) (s : state_t) (ctx : ctx_t) :
      Reachable sym GIC_SOURCE_TIMER0 s →
      Reachable sym GIC_SOURCE_TIMER0 (hilevel_handler_svc mem s ctx).1

/-- The state after `k` further scheduler invocations, the `j`-th of them on
the live context `cs j`. -/
def run (cs : Nat → ctx_t) : Nat → state_t → state_t
  | 0,     s => s
  | k + 1, s => (scheduler (run cs k s) (cs k)).1

end cw1

/-! ## The scheduler of the specification (§4.3) -/

/-- Step 2 of `select_next`: `next = (cursor + 1) mod capacity`. -/
def next_index {N : Nat} (hN : 0 < N) (cursor : Fin N) : Fin N :=
  ⟨(cursor.val + 1) % N, Nat.mod_lt _ hN⟩

/-- The function `select_next(live_ctx, table, cursor) → cursor'` written from
the four steps of §4.3 of the specification, for a table of capacity `N`; it
returns the overwritten live context, the mutated table and the new cursor. -/
def select_next {N : Nat} (hN : 0 < N) (live_ctx : ctx_t) (table : Fin N → pcb_t)
    (cursor : Fin N) : ctx_t × (Fin N → pcb_t) × Fin N :=
  let table := set_status (set_ctx table cursor live_ctx) cursor status_t.STATUS_READY
  let next := next_index hN cursor
  let live_ctx := (table next).ctx
  let table := set_status table next status_t.STATUS_EXECUTING
  (live_ctx, table, next)

/-- Exactly one PCB of the table is EXECUTING, and every other PCB is READY. -/
def one_executing {N : Nat} (pcb : Fin N → pcb_t) : Prop :=
  ∃ i : Fin N, (pcb i).status = status_t.STATUS_EXECUTING ∧
    ∀ j : Fin N, j ≠ i → (pcb j).status = status_t.STATUS_READY

instance {N : Nat} (pcb : Fin N → pcb_t) : Decidable (one_executing pcb) := by
  unfold one_executing; infer_instance

/-- The cursor invariant of `lab3`: `executing` is a table index, the PCB it
names is EXECUTING, every other PCB is READY, and the pids are `1, 2`. -/
def lab3.inv (s : lab3.state_t) : Prop :=
  ∃ i : Fin 2, s.executing = (i.val : Int) ∧
    (s.pcb i).status = status_t.STATUS_EXECUTING ∧
    (∀ j : Fin 2, j ≠ i → (s.pcb j).status = status_t.STATUS_READY) ∧
    ∀ j : Fin 2, (s.pcb j).pid = 1 + (j.val : Int)

/-- The cursor invariant of `cw1`: `executing` is `3 +` a table index, the
PCB at that index is EXECUTING, every other PCB is READY, and the pids are
`3, 4, 5`. -/
def cw1.inv (s : cw1.state_t) : Prop :=
  ∃ i : Fin 3, s.executing = 3 + (i.val : Int) ∧
    (s.pcb i).status = status_t.STATUS_EXECUTING ∧
    (∀ j : Fin 3, j ≠ i → (s.pcb j).status = status_t.STATUS_READY) ∧
    ∀ j : Fin 3, (s.pcb j).pid = 3 + (j.val : Int)

/-- The value of `executing` that designates table entry `i` in `lab3`: the
index itself. -/
def lab3.designator (i : Fin 2) : Int := (i.val : Int)

/-- The value of `executing` that designates table entry `i` in `cw1`: the
`case` labels of `scheduler` are `3`, `4`, `5` for entries `0`, `1`, `2`. -/
def cw1.designator (i : Fin 3) : Int := 3 + (i.val : Int)

/-! ## Concrete inputs -/

/-- A context with every field zero. -/
def ctx_zero : ctx_t := { cpsr := 0, pc := 0, gpr := fun _ => 0, sp := 0, lr := 0 }

/-- A context with `gpr[ i ] = 100 + i`, `pc = 0x8000`, `sp = 0x9000`,
`lr = 0x8004` and `cpsr = 0x50`. -/
def ctx_ex : ctx_t :=
  { cpsr := 0x50, pc := 0x8000, gpr := fun i => 100 + i.val, sp := 0x9000, lr := 0x8004 }

/-- Sample addresses for the two programs of `lab3`. -/
def lab3.sym_ex : lab3.symbols_t :=
  { main_P1 := 0x70010000, tos_P1 := 0x70110000, main_P2 := 0x70020000, tos_P2 := 0x70120000 }

/-- A `lab3` state before reset: zeroed globals, no device access yet. -/
def lab3.state_zero : lab3.state_t :=
  { pcb := fun _ => { pid := 0, status := status_t.STATUS_READY, ctx := ctx_zero }
    executing := 0
    trace := []
    steps := [] }

/-- Sample addresses for the three programs of `cw1`. -/
def cw1.sym_ex : cw1.symbols_t :=
  { main_P3 := 0x70030000, tos_P3 := 0x70130000, main_P4 := 0x70040000, tos_P4 := 0x70140000,
    main_P5 := 0x70050000, tos_P5 := 0x70150000 }

/-- A `cw1` state before reset: zeroed table, `executing = 3` as in its
initialiser, zeroed device registers, no device access yet. -/
def cw1.state_zero : cw1.state_t :=
  { pcb := fun _ => { pid := 0, status := status_t.STATUS_READY, ctx := ctx_zero }
    executing := 3
    regs := fun _ => 0
    trace := []
    steps := [] }

/-- A memory holding `'A'` at address `0x1000`, `'B'` at `0x1001` and zero
elsewhere. -/
def mem_AB (a : Nat) : Nat :=
  if a = 0x1000 then 65 else if a = 0x1001 then 66 else 0

/-- The context of a trapped `write( 1, "AB", 2 )`: `gpr[ 0 ] = 1`,
`gpr[ 1 ] = 0x1000`, `gpr[ 2 ] = 2`. -/
def ctx_write_AB : ctx_t :=
  { ctx_zero with
    gpr := Function.update (Function.update (Function.update (fun _ => 0) 0 1) 1 0x1000) 2 2 }
/-! ## Timer interrupts and further concrete inputs -/

/-- The state after `k` timer interrupts: `k` calls of `hilevel_handler_irq`
in each of which the read of `GICC0->IAR` returns `GIC_SOURCE_TIMER0`, the
`j`-th of them on the live context `cs j`. -/
def cw1.ticks ( GIC_SOURCE_TIMER0 : Nat) (cs : Nat → ctx_t) : Nat → cw1.state_t → cw1.state_t
  | 0,     s => s
  | k + 1, s =>
    (cw1.hilevel_handler_irq GIC_SOURCE_TIMER0 GIC_SOURCE_TIMER0
      (cw1.ticks GIC_SOURCE_TIMER0 cs k s) (cs k)).1

/-- The values of `executing` observed after each of the first `n` timer
interrupts fired from the state `s`. -/
def cw1.observed_executing ( GIC_SOURCE_TIMER0 : Nat) (cs : Nat → ctx_t) (n : Nat)
    (s : cw1.state_t) : List Int :=
  (List.range n).map (fun k => (cw1.ticks GIC_SOURCE_TIMER0 cs (k + 1) s).executing)

/-- A `cw1` state whose cursor is `0`: the state left by reset with
`executing` overwritten by `0`. -/
def cw1.state_cursor_zero : cw1.state_t :=
  { (cw1.hilevel_handler_rst cw1.sym_ex cw1.state_zero ctx_zero).1 with executing := 0 }

/-- The context of a trapped write whose length register holds `0x80000000`:
`gpr[ 0 ] = 1`, `gpr[ 1 ] = 0x1000`, `gpr[ 2 ] = 0x80000000`. -/
def ctx_write_neg : ctx_t :=
  { ctx_zero with
    gpr := Function.update (Function.update (Function.update (fun _ => 0) 0 1) 1 0x1000) 2
      0x80000000 }

/-- The number of bytes handed to the character-output device in a trace. -/
def putc_count : List event_t → Nat
  | [] => 0
  | event_t.putc _ :: tr => putc_count tr + 1
  | _ :: tr => putc_count tr

/-! ## Invariant lemmas -/

theorem lab3_inv_rst (sym : lab3.symbols_t) (s : lab3.state_t) (ctx : ctx_t) :
    lab3.inv (lab3.hilevel_handler_rst sym s ctx).1 := by
  refine ⟨0, ?_, ?_, ?_, ?_⟩
  · simp [lab3.hilevel_handler_rst]
  · simp [lab3.hilevel_handler_rst, set_status]
  · intro j hj
    fin_cases j
    · exact absurd rfl hj
    · simp [lab3.hilevel_handler_rst, set_status, pcb_init]
  · intro j
    fin_cases j <;> simp [lab3.hilevel_handler_rst, set_status, pcb_init]

theorem lab3_inv_scheduler (s : lab3.state_t) (ctx : ctx_t) (h : lab3.inv s) :
    lab3.inv (lab3.scheduler s ctx).1 := by
  obtain ⟨i, hi, _, _, hp⟩ := h
  have hp0 := hp 0
  have hp1 := hp 1
  fin_cases i <;> simp at hi
  · refine ⟨1, ?_, ?_, ?_, ?_⟩
    · simp [lab3.scheduler, hi]
    · simp [lab3.scheduler, hi, set_status]
    · intro j hj
      fin_cases j
      · simp [lab3.scheduler, hi, set_status, set_ctx]
      · exact absurd rfl hj
    · intro j
      fin_cases j <;> simp [lab3.scheduler, hi, set_status, set_ctx] <;> simpa using ‹_›
  · refine ⟨0, ?_, ?_, ?_, ?_⟩
    · simp [lab3.scheduler, hi]
    · simp [lab3.scheduler, hi, set_status]
    · intro j hj
      fin_cases j
      · exact absurd rfl hj
      · simp [lab3.scheduler, hi, set_status, set_ctx]
    · intro j
      fin_cases j <;> simp [lab3.scheduler, hi, set_status, set_ctx] <;> simpa using ‹_›

theorem lab3_inv_svc (mem : Nat → Nat) (s : lab3.state_t) (ctx : ctx_t) (id : Nat)
    (h : lab3.inv s) : lab3.inv (lab3.hilevel_handler_svc mem s ctx id).1 := by
  match id with
  | 0 => exact lab3_inv_scheduler { s with steps := s.steps ++ [step_t.call_scheduler] } ctx h
  | 1 => exact h
  | _ + 2 => exact h

theorem lab3_inv_of_reachable (sym : lab3.symbols_t) (s : lab3.state_t)
    (h : lab3.Reachable sym s) : lab3.inv s := by
  induction h with
  | rst s ctx => exact lab3_inv_rst sym s ctx
  | sched s ctx _ ih => exact lab3_inv_scheduler s ctx ih
  | svc mem s ctx id _ ih => exact lab3_inv_svc mem s ctx id ih

theorem cw1_inv_rst (sym : cw1.symbols_t) (s : cw1.state_t) (ctx : ctx_t) :
    cw1.inv (cw1.hilevel_handler_rst sym s ctx).1 := by
  refine ⟨0, ?_, ?_, ?_, ?_⟩
  · simp [cw1.hilevel_handler_rst, cw1.rst_select]
  · simp [cw1.hilevel_handler_rst, cw1.rst_select, set_status]
  · intro j hj
    fin_cases j
    · exact absurd rfl hj
    · simp [cw1.hilevel_handler_rst, cw1.rst_select, cw1.int_enable_irq, cw1.rst_pcbs,
        set_status, pcb_init]
    · simp [cw1.hilevel_handler_rst, cw1.rst_select, cw1.int_enable_irq, cw1.rst_pcbs,
        set_status, pcb_init]
  · intro j
    fin_cases j <;>
      simp [cw1.hilevel_handler_rst, cw1.rst_select, cw1.int_enable_irq, cw1.rst_pcbs,
        set_status, pcb_init]

theorem cw1_inv_scheduler (s : cw1.state_t) (ctx : ctx_t) (h : cw1.inv s) :
    cw1.inv (cw1.scheduler s ctx).1 := by
  obtain ⟨i, hi, _, hr, hp⟩ := h
  have hp0 := hp 0
  have hp1 := hp 1
  have hp2 := hp 2
  have hr0 := hr 0
  have hr1 := hr 1
  have hr2 := hr 2
  fin_cases i <;> simp at hi hr0 hr1 hr2
  · refine ⟨1, ?_, ?_, ?_, ?_⟩
    · simp [cw1.scheduler, hi]
    · simp [cw1.scheduler, hi, set_status]
    · intro j hj
      fin_cases j
      · simp [cw1.scheduler, hi, set_status, set_ctx]
      · exact absurd rfl hj
      · simpa [cw1.scheduler, hi, set_status, set_ctx] using hr2
    · intro j
      fin_cases j <;> simp [cw1.scheduler, hi, set_status, set_ctx] <;> simpa using ‹_›
  · refine ⟨2, ?_, ?_, ?_, ?_⟩
    · simp [cw1.scheduler, hi]
    · simp [cw1.scheduler, hi, set_status]
    · intro j hj
      fin_cases j
      · simpa [cw1.scheduler, hi, set_status, set_ctx] using hr0
      · simp [cw1.scheduler, hi, set_status, set_ctx]
      · exact absurd rfl hj
    · intro j
      fin_cases j <;> simp [cw1.scheduler, hi, set_status, set_ctx] <;> simpa using ‹_›
  · refine ⟨0, ?_, ?_, ?_, ?_⟩
    · simp [cw1.scheduler, hi]
    · simp [cw1.scheduler, hi, set_status]
    · intro j hj
      fin_cases j
      · exact absurd rfl hj
      · simpa [cw1.scheduler, hi, set_status, set_ctx] using hr1
      · simp [cw1.scheduler, hi, set_status, set_ctx]
    · intro j
      fin_cases j <;> simp [cw1.scheduler, hi, set_status, set_ctx] <;> simpa using ‹_›

theorem cw1_inv_frame (s t : cw1.state_t) (hp : t.pcb = s.pcb) (he : t.executing = s.executing)
    (h : cw1.inv s) : cw1.inv t := by
  unfold cw1.inv at h ⊢
  rw [hp, he]
  exact h

theorem cw1_inv_irq (T iar : Nat) (s : cw1.state_t) (ctx : ctx_t) (h : cw1.inv s) :
    cw1.inv (cw1.hilevel_handler_irq T iar s ctx).1 := by
  by_cases hT : iar = T
  · have h1 : cw1.inv (cw1.scheduler
        { cw1.reg_read reg_t.GICC0_IAR iar s with
          steps := (cw1.reg_read reg_t.GICC0_IAR iar s).steps ++ [step_t.call_scheduler] }
        ctx).1 :=
      cw1_inv_scheduler _ ctx (cw1_inv_frame s _ rfl rfl h)
    refine cw1_inv_frame _ _ ?_ ?_ h1 <;>
      simp [cw1.hilevel_handler_irq, hT, cw1.reg_write]
  · refine cw1_inv_frame _ _ ?_ ?_ h <;>
      simp [cw1.hilevel_handler_irq, hT, cw1.reg_write, cw1.reg_read]

theorem cw1_inv_svc (mem : Nat → Nat) (s : cw1.state_t) (ctx : ctx_t) (h : cw1.inv s) :
    cw1.inv (cw1.hilevel_handler_svc mem s ctx).1 :=
  cw1_inv_frame _ _ rfl rfl h

theorem cw1_inv_of_reachable (sym : cw1.symbols_t) (T : Nat) (s : cw1.state_t)
    (h : cw1.Reachable sym T s) : cw1.inv s := by
  induction h with
  | rst s ctx => exact cw1_inv_rst sym s ctx
  | sched s ctx _ ih => exact cw1_inv_scheduler s ctx ih
  | irq iar s ctx _ ih => exact cw1_inv_irq T iar s ctx ih
  | svc mem s ctx _ ih => exact cw1_inv_svc mem s ctx ih

/-! ## Runs of the scheduler -/

theorem lab3_scheduler_executing (s : lab3.state_t) (c : ctx_t) (n : Nat)
    (h : s.executing = ((n % 2 : Nat) : Int)) :
    (lab3.scheduler s c).1.executing = (((n + 1) % 2 : Nat) : Int) := by
  have hn : n % 2 = 0 ∨ n % 2 = 1 := by omega
  rcases hn with h0 | h1
  · have h2 : (n + 1) % 2 = 1 := by omega
    rw [h0] at h
    simp [lab3.scheduler, h, h2]
  · have h2 : (n + 1) % 2 = 0 := by omega
    rw [h1] at h
    simp [lab3.scheduler, h, h2]

theorem lab3_run_inv (cs : Nat → ctx_t) (k : Nat) (s : lab3.state_t) (h : lab3.inv s) :
    lab3.inv (lab3.run cs k s) := by
  induction k with
  | zero => exact h
  | succ k ih => exact lab3_inv_scheduler _ _ ih

theorem lab3_run_executing (cs : Nat → ctx_t) (k : Nat) (s : lab3.state_t)
    (h : s.executing = 0) : (lab3.run cs k s).executing = ((k % 2 : Nat) : Int) := by
  induction k with
  | zero => simpa [lab3.run] using h
  | succ k ih => exact lab3_scheduler_executing _ _ k ih

theorem lab3_inv_status (s : lab3.state_t) (h : lab3.inv s) (n : Nat)
    (he : s.executing = (n : Int)) (j : Fin 2) :
    (s.pcb j).status = status_t.STATUS_EXECUTING ↔ j.val = n := by
  obtain ⟨i, hi, hx, hr, _⟩ := h
  have hin : i.val = n := by omega
  constructor
  · intro hj
    by_contra hne
    have hji : j ≠ i := fun e => hne (by rw [e]; exact hin)
    rw [hr j hji] at hj
    exact absurd hj (by decide)
  · intro hj
    have : j = i := Fin.ext (by omega)
    rw [this]; exact hx

theorem cw1_scheduler_executing (s : cw1.state_t) (c : ctx_t) (n : Nat)
    (h : s.executing = 3 + ((n % 3 : Nat) : Int)) :
    (cw1.scheduler s c).1.executing = 3 + (((n + 1) % 3 : Nat) : Int) := by
  have hn : n % 3 = 0 ∨ n % 3 = 1 ∨ n % 3 = 2 := by omega
  rcases hn with h0 | h1 | h2
  · have h3 : (n + 1) % 3 = 1 := by omega
    rw [h0] at h
    simp [cw1.scheduler, h, h3]
  · have h3 : (n + 1) % 3 = 2 := by omega
    rw [h1] at h
    simp [cw1.scheduler, h, h3]
  · have h3 : (n + 1) % 3 = 0 := by omega
    rw [h2] at h
    simp [cw1.scheduler, h, h3]

theorem cw1_run_inv (cs : Nat → ctx_t) (k : Nat) (s : cw1.state_t) (h : cw1.inv s) :
    cw1.inv (cw1.run cs k s) := by
  induction k with
  | zero => exact h
  | succ k ih => exact cw1_inv_scheduler _ _ ih

theorem cw1_run_executing (cs : Nat → ctx_t) (k : Nat) (s : cw1.state_t)
    (h : s.executing = 3) : (cw1.run cs k s).executing = 3 + ((k % 3 : Nat) : Int) := by
  induction k with
  | zero => simpa [cw1.run] using h
  | succ k ih => exact cw1_scheduler_executing _ _ k ih

theorem cw1_inv_status (s : cw1.state_t) (h : cw1.inv s) (n : Nat)
    (he : s.executing = 3 + (n : Int)) (j : Fin 3) :
    (s.pcb j).status = status_t.STATUS_EXECUTING ↔ j.val = n := by
  obtain ⟨i, hi, hx, hr, _⟩ := h
  have hin : i.val = n := by omega
  constructor
  · intro hj
    by_contra hne
    have hji : j ≠ i := fun e => hne (by rw [e]; exact hin)
    rw [hr j hji] at hj
    exact absurd hj (by decide)
  · intro hj
    have : j = i := Fin.ext (by omega)
    rw [this]; exact hx

theorem lab3_rst_executing (sym : lab3.symbols_t) (s : lab3.state_t) (ctx : ctx_t) :
    (lab3.hilevel_handler_rst sym s ctx).1.executing = 0 := rfl

theorem cw1_rst_executing (sym : cw1.symbols_t) (s : cw1.state_t) (ctx : ctx_t) :
    (cw1.hilevel_handler_rst sym s ctx).1.executing = 3 := rfl

theorem one_executing_of_lab3_inv (s : lab3.state_t) (h : lab3.inv s) : one_executing s.pcb := by
  obtain ⟨i, _, hx, hr, _⟩ := h
  exact ⟨i, hx, hr⟩

theorem one_executing_of_cw1_inv (s : cw1.state_t) (h : cw1.inv s) : one_executing s.pcb := by
  obtain ⟨i, _, hx, hr, _⟩ := h
  exact ⟨i, hx, hr⟩

theorem one_executing_unique {N : Nat} (pcb : Fin N → pcb_t) (h : one_executing pcb) :
    ∃! i : Fin N, (pcb i).status = status_t.STATUS_EXECUTING := by
  obtain ⟨i, hx, hr⟩ := h
  refine ⟨i, hx, ?_⟩
  intro j hj
  by_contra hne
  rw [hr j hne] at hj
  exact absurd hj (by decide)

/-! ## Context round trip -/

theorem lab3_scheduler_roundtrip (s s1 : lab3.state_t) (c c1 : ctx_t) (h : lab3.inv s)
    (hp : s1.pcb = (lab3.scheduler s c).1.pcb)
    (he : s1.executing = (lab3.scheduler s c).1.executing) :
    (lab3.scheduler s1 c1).2 = c := by
  obtain ⟨i, hi, _, _, _⟩ := h
  fin_cases i <;> simp at hi
  · simp [lab3.scheduler, hi] at hp he
    simp [lab3.scheduler, hp, he, set_status, set_ctx, memcpy_ctx]
  · simp [lab3.scheduler, hi] at hp he
    simp [lab3.scheduler, hp, he, set_status, set_ctx, memcpy_ctx]

theorem cw1_scheduler_roundtrip (s s1 s2 : cw1.state_t) (c c1 c2 : ctx_t) (h : cw1.inv s)
    (hp1 : s1.pcb = (cw1.scheduler s c).1.pcb)
    (he1 : s1.executing = (cw1.scheduler s c).1.executing)
    (hp2 : s2.pcb = (cw1.scheduler s1 c1).1.pcb)
    (he2 : s2.executing = (cw1.scheduler s1 c1).1.executing) :
    (cw1.scheduler s2 c2).2 = c := by
  obtain ⟨i, hi, _, _, _⟩ := h
  fin_cases i <;> simp at hi
  · simp [cw1.scheduler, hi] at hp1 he1
    simp [cw1.scheduler, hp1, he1] at hp2 he2
    simp [cw1.scheduler, hp2, he2, set_status, set_ctx, memcpy_ctx]
  · simp [cw1.scheduler, hi] at hp1 he1
    simp [cw1.scheduler, hp1, he1] at hp2 he2
    simp [cw1.scheduler, hp2, he2, set_status, set_ctx, memcpy_ctx]
  · simp [cw1.scheduler, hi] at hp1 he1
    simp [cw1.scheduler, hp1, he1] at hp2 he2
    simp [cw1.scheduler, hp2, he2, set_status, set_ctx, memcpy_ctx]

/-! ## Cyclic order -/

theorem lab3_run_status (sym : lab3.symbols_t) (s : lab3.state_t) (c : ctx_t)
    (cs : Nat → ctx_t) (k : Nat) (j : Fin 2) :
    ((lab3.run cs k (lab3.hilevel_handler_rst sym s c).1).pcb j).status
      = status_t.STATUS_EXECUTING ↔ j.val = k % 2 :=
  lab3_inv_status _ (lab3_run_inv cs k _ (lab3_inv_rst sym s c)) (k % 2)
    (lab3_run_executing cs k _ (lab3_rst_executing sym s c)) j

theorem cw1_run_status (sym : cw1.symbols_t) (s : cw1.state_t) (c : ctx_t)
    (cs : Nat → ctx_t) (k : Nat) (j : Fin 3) :
    ((cw1.run cs k (cw1.hilevel_handler_rst sym s c).1).pcb j).status
      = status_t.STATUS_EXECUTING ↔ j.val = k % 3 :=
  cw1_inv_status _ (cw1_run_inv cs k _ (cw1_inv_rst sym s c)) (k % 3)
    (cw1_run_executing cs k _ (cw1_rst_executing sym s c)) j

/-! ## The write loop and the device trace -/

theorem putc_loop_eq (mem : Nat → Nat) (k x : Nat) (tr : List event_t) (hx : x < 2 ^ 32) :
    putc_loop mem k x tr
      = tr ++ (List.range k).map (fun i => event_t.putc (mem ((x + i) % 2 ^ 32))) := by
  induction k generalizing x tr with
  | zero => simp [putc_loop]
  | succ k ih =>
    have hx1 : (x + 1) % 2 ^ 32 < 2 ^ 32 := Nat.mod_lt _ (by norm_num)
    rw [putc_loop, ih _ _ hx1, List.range_succ_eq_map, List.map_cons, List.map_map,
      List.append_assoc]
    have h0 : (x + 0) % 2 ^ 32 = x := by simpa using Nat.mod_eq_of_lt hx
    have hf : (fun i => event_t.putc (mem (((x + 1) % 2 ^ 32 + i) % 2 ^ 32)))
        = (fun i => event_t.putc (mem ((x + i) % 2 ^ 32))) ∘ Nat.succ := by
      funext i
      have : ((x + 1) % 2 ^ 32 + i) % 2 ^ 32 = (x + (i + 1)) % 2 ^ 32 := by
        rw [Nat.add_mod, Nat.mod_mod, ← Nat.add_mod]; congr 1; omega
      show event_t.putc (mem (((x + 1) % 2 ^ 32 + i) % 2 ^ 32))
        = event_t.putc (mem ((x + (i + 1)) % 2 ^ 32))
      rw [this]
    rw [hf, h0]
    simp

theorem to_int_of_small (v : Nat) (h : v ≤ 2 ^ 31 - 1) : to_int v = (v : Int) := by
  have h1 : v % 2 ^ 32 = v := Nat.mod_eq_of_lt (by omega)
  have h2 : v < 2 ^ 31 := by omega
  unfold to_int
  rw [h1, if_pos h2]

theorem of_int_of_small (v : Nat) (h : v ≤ 2 ^ 31 - 1) : of_int (v : Int) = v := by
  have h1 : v % 2 ^ 32 = v := Nat.mod_eq_of_lt (by omega)
  unfold of_int
  have : ((v : Int) % 2 ^ 32) = ((v % 2 ^ 32 : Nat) : Int) := by norm_cast
  rw [this, h1]
  simp

theorem write_trace (mem : Nat → Nat) (tr : List event_t) (p n : Nat) (h : n ≤ 2 ^ 31 - 1) :
    putc_loop mem (to_int n).toNat (p % 2 ^ 32) tr
      = tr ++ (List.range n).map (fun i => event_t.putc (mem ((p + i) % 2 ^ 32))) := by
  rw [to_int_of_small n h, Int.toNat_ofNat, putc_loop_eq mem n _ tr (Nat.mod_lt _ (by norm_num))]
  congr 2
  funext i
  rw [Nat.add_mod, Nat.mod_mod, ← Nat.add_mod]

theorem write_trace_no_wrap (mem : Nat → Nat) (p n : Nat) (h : p + n ≤ 2 ^ 32) :
    (List.range n).map (fun i => event_t.putc (mem ((p + i) % 2 ^ 32)))
      = (List.range n).map (fun i => event_t.putc (mem (p + i))) := by
  apply List.map_congr_left
  intro i hi
  have hi2 : i < n := List.mem_range.mp hi
  have : (p + i) % 2 ^ 32 = p + i := Nat.mod_eq_of_lt (by omega)
  show event_t.putc (mem ((p + i) % 2 ^ 32)) = event_t.putc (mem (p + i))
  rw [this]

theorem cw1_scheduler_trace (s : cw1.state_t) (c : ctx_t) :
    (cw1.scheduler s c).1.trace = s.trace := by
  unfold cw1.scheduler
  split_ifs <;> rfl

theorem lab3_scheduler_trace (s : lab3.state_t) (c : ctx_t) :
    (lab3.scheduler s c).1.trace = s.trace := by
  unfold lab3.scheduler
  split_ifs <;> rfl

theorem cw1_scheduler_steps (s : cw1.state_t) (c : ctx_t) :
    (cw1.scheduler s c).1.steps = s.steps := by
  unfold cw1.scheduler
  split_ifs <;> rfl

theorem cw1_scheduler_regs (s : cw1.state_t) (c : ctx_t) :
    (cw1.scheduler s c).1.regs = s.regs := by
  unfold cw1.scheduler
  split_ifs <;> rfl

theorem cw1_scheduler_frame (s t : cw1.state_t) (c : ctx_t) (hp : t.pcb = s.pcb)
    (he : t.executing = s.executing) :
    (cw1.scheduler t c).1.pcb = (cw1.scheduler s c).1.pcb ∧
    (cw1.scheduler t c).1.executing = (cw1.scheduler s c).1.executing ∧
    (cw1.scheduler t c).2 = (cw1.scheduler s c).2 := by
  unfold cw1.scheduler
  rw [hp, he]
  split_ifs <;> simp [hp, he]

theorem cw1_irq_steps (T iar : Nat) (s : cw1.state_t) (ctx : ctx_t) :
    (cw1.hilevel_handler_irq T iar s ctx).1.steps
      = s.steps ++ ([step_t.dev (event_t.rd reg_t.GICC0_IAR iar)]
          ++ (if iar = T then
                [step_t.call_scheduler, step_t.dev (event_t.wr reg_t.TIMER0_Timer1IntClr 0x01)]
              else [])
          ++ [step_t.dev (event_t.wr reg_t.GICC0_EOIR iar)]) ∧
    (cw1.hilevel_handler_irq T iar s ctx).1.trace
      = s.trace ++ ([event_t.rd reg_t.GICC0_IAR iar]
          ++ (if iar = T then [event_t.wr reg_t.TIMER0_Timer1IntClr 0x01] else [])
          ++ [event_t.wr reg_t.GICC0_EOIR iar]) := by
  by_cases hT : iar = T
  · simp [cw1.hilevel_handler_irq, hT, cw1.reg_write, cw1.reg_read, cw1_scheduler_steps,
      cw1_scheduler_trace]
  · simp [cw1.hilevel_handler_irq, hT, cw1.reg_write, cw1.reg_read]

/-! ## The claims -/

/-- C1: in both variants, when `executing` designates table entry `i`
(`executing = i` in lab3, `executing = 3 + i` in cw1), one call
`scheduler( ctx )` on the live context `c` performs exactly the four steps of
`select_next`: the resulting table, live context and cursor are those of
`select_next c pcb i`, nothing else changes, and in particular `pcb[i].ctx`
becomes `c`, `pcb[i].status` becomes READY, the live context becomes the
previous `pcb[(i+1) mod capacity].ctx`, `pcb[(i+1) mod capacity].status`
becomes EXECUTING and `executing` designates `(i+1) mod capacity`. -/
theorem scheduler_performs_select_next :
    (∀ (s : lab3.state_t) (c : ctx_t) (i : Fin 2), s.executing = lab3.designator i →
      lab3.scheduler s c =
        ({ s with pcb := (select_next Nat.two_pos c s.pcb i).2.1,
                  executing := lab3.designator (select_next Nat.two_pos c s.pcb i).2.2 },
         (select_next Nat.two_pos c s.pcb i).1) ∧
      ((lab3.scheduler s c).1.pcb i).ctx = c ∧
      ((lab3.scheduler s c).1.pcb i).status = status_t.STATUS_READY ∧
      (lab3.scheduler s c).2 = (s.pcb (next_index Nat.two_pos i)).ctx ∧
      ((lab3.scheduler s c).1.pcb (next_index Nat.two_pos i)).status
        = status_t.STATUS_EXECUTING ∧
      (lab3.scheduler s c).1.executing = lab3.designator (next_index Nat.two_pos i) ∧
      (next_index Nat.two_pos i).val = (i.val + 1) % 2) ∧
    (∀ (s : cw1.state_t) (c : ctx_t) (i : Fin 3), s.executing = cw1.designator i →
      cw1.scheduler s c =
        ({ s with pcb := (select_next (Nat.succ_pos 2) c s.pcb i).2.1,
                  executing := cw1.designator (select_next (Nat.succ_pos 2) c s.pcb i).2.2 },
         (select_next (Nat.succ_pos 2) c s.pcb i).1) ∧
      ((cw1.scheduler s c).1.pcb i).ctx = c ∧
      ((cw1.scheduler s c).1.pcb i).status = status_t.STATUS_READY ∧
      (cw1.scheduler s c).2 = (s.pcb (next_index (Nat.succ_pos 2) i)).ctx ∧
      ((cw1.scheduler s c).1.pcb (next_index (Nat.succ_pos 2) i)).status
        = status_t.STATUS_EXECUTING ∧
      (cw1.scheduler s c).1.executing = cw1.designator (next_index (Nat.succ_pos 2) i) ∧
      (next_index (Nat.succ_pos 2) i).val = (i.val + 1) % 3) := by
  constructor
  · intro s c i h
    fin_cases i <;> simp [lab3.designator] at h <;>
      simp [lab3.scheduler, select_next, next_index, h, memcpy_ctx, lab3.designator,
        set_status, set_ctx]
  · intro s c i h
    fin_cases i <;> simp [cw1.designator] at h <;>
      simp [cw1.scheduler, select_next, next_index, h, memcpy_ctx, cw1.designator,
        set_status, set_ctx]

theorem scheduler_performs_select_next_witness :
    (lab3.state_zero.executing = lab3.designator 0 ∧
      ((lab3.scheduler lab3.state_zero ctx_ex).1.pcb 0).ctx = ctx_ex) ∧
    (cw1.state_zero.executing = cw1.designator 0 ∧
      ((cw1.scheduler cw1.state_zero ctx_ex).1.pcb 0).ctx = ctx_ex) :=
  ⟨⟨rfl, (scheduler_performs_select_next.1 lab3.state_zero ctx_ex 0 rfl).2.1⟩,
   ⟨rfl, (scheduler_performs_select_next.2 cw1.state_zero ctx_ex 0 rfl).2.1⟩⟩

/-- C2: in both variants, in the state left by `hilevel_handler_rst` (from any
prior state) and in the state left by each of any number `k` of subsequent
scheduler invocations, on arbitrary live contexts `cs 0, cs 1, ...`, exactly
one PCB has status EXECUTING and every other PCB has status READY. -/
theorem mutual_exclusion :
    (∀ (sym : lab3.symbols_t) (s : lab3.state_t) (c : ctx_t) (cs : Nat → ctx_t) (k : Nat),
      one_executing (lab3.run cs k (lab3.hilevel_handler_rst sym s c).1).pcb ∧
      ∃! i : Fin 2, ((lab3.run cs k (lab3.hilevel_handler_rst sym s c).1).pcb i).status
        = status_t.STATUS_EXECUTING) ∧
    (∀ (sym : cw1.symbols_t) (s : cw1.state_t) (c : ctx_t) (cs : Nat → ctx_t) (k : Nat),
      one_executing (cw1.run cs k (cw1.hilevel_handler_rst sym s c).1).pcb ∧
      ∃! i : Fin 3, ((cw1.run cs k (cw1.hilevel_handler_rst sym s c).1).pcb i).status
        = status_t.STATUS_EXECUTING) := by
  constructor
  · intro sym s c cs k
    have h := one_executing_of_lab3_inv _ (lab3_run_inv cs k _ (lab3_inv_rst sym s c))
    exact ⟨h, one_executing_unique _ h⟩
  · intro sym s c cs k
    have h := one_executing_of_cw1_inv _ (cw1_run_inv cs k _ (cw1_inv_rst sym s c))
    exact ⟨h, one_executing_unique _ h⟩

/-- C3, as stated, fails in cw1: the state left by reset is reachable, and
its cursor `executing` is `3`, which is not an index of the three-entry
process table. -/
theorem cw1_cursor_not_table_index :
    cw1.Reachable cw1.sym_ex 36 (cw1.hilevel_handler_rst cw1.sym_ex cw1.state_zero ctx_zero).1 ∧
    ¬ (0 ≤ (cw1.hilevel_handler_rst cw1.sym_ex cw1.state_zero ctx_zero).1.executing ∧
       (cw1.hilevel_handler_rst cw1.sym_ex cw1.state_zero ctx_zero).1.executing < 3) :=
  ⟨cw1.Reachable.rst cw1.state_zero ctx_zero, by
    rw [cw1_rst_executing]; decide⟩

/-- C3 (amended): in every state reachable from `hilevel_handler_rst` by any
sequence of scheduler, interrupt-handler and trap-handler calls, the cursor
designates a valid table entry that is EXECUTING.  In lab3 the cursor is the
table index itself, `0 ≤ executing < 2`.  In cw1 the cursor is the pid of the
running process, `3 ≤ executing < 6`, and the entry it designates is the one
at table index `executing - 3`. -/
theorem cursor_designates_executing :
    (∀ (sym : lab3.symbols_t) (s : lab3.state_t), lab3.Reachable sym s →
      ∃ i : Fin 2, s.executing = (i.val : Int) ∧
        (s.pcb i).status = status_t.STATUS_EXECUTING) ∧
    (∀ (sym : cw1.symbols_t) (T : Nat) (s : cw1.state_t), cw1.Reachable sym T s →
      ∃ i : Fin 3, s.executing = 3 + (i.val : Int) ∧
        (s.pcb i).status = status_t.STATUS_EXECUTING ∧ (s.pcb i).pid = s.executing) := by
  constructor
  · intro sym s h
    obtain ⟨i, hi, hx, _, _⟩ := lab3_inv_of_reachable sym s h
    exact ⟨i, hi, hx⟩
  · intro sym T s h
    obtain ⟨i, hi, hx, _, hp⟩ := cw1_inv_of_reachable sym T s h
    exact ⟨i, hi, hx, by rw [hp i, hi]⟩

theorem cursor_designates_executing_witness :
    (∃ i : Fin 2, (lab3.hilevel_handler_rst lab3.sym_ex lab3.state_zero ctx_zero).1.executing
        = (i.val : Int) ∧
      ((lab3.hilevel_handler_rst lab3.sym_ex lab3.state_zero ctx_zero).1.pcb i).status
        = status_t.STATUS_EXECUTING) ∧
    (∃ i : Fin 3,
      (cw1.scheduler (cw1.hilevel_handler_rst cw1.sym_ex cw1.state_zero ctx_zero).1
        ctx_ex).1.executing = 3 + (i.val : Int) ∧
      ((cw1.scheduler (cw1.hilevel_handler_rst cw1.sym_ex cw1.state_zero ctx_zero).1
        ctx_ex).1.pcb i).status = status_t.STATUS_EXECUTING ∧
      ((cw1.scheduler (cw1.hilevel_handler_rst cw1.sym_ex cw1.state_zero ctx_zero).1
        ctx_ex).1.pcb i).pid
        = (cw1.scheduler (cw1.hilevel_handler_rst cw1.sym_ex cw1.state_zero ctx_zero).1
            ctx_ex).1.executing) :=
  ⟨cursor_designates_executing.1 lab3.sym_ex _ (lab3.Reachable.rst lab3.state_zero ctx_zero),
   cursor_designates_executing.2 cw1.sym_ex 36 _
     (cw1.Reachable.sched _ ctx_ex (cw1.Reachable.rst cw1.state_zero ctx_zero))⟩

/-- C4: in both variants a suspended program is resumed with exactly the
context it was suspended with.  If `scheduler` is invoked in a reachable
state on the live context `c`, then the `capacity`-th scheduler invocation
counted from that one (the 2nd in lab3, the 3rd in cw1) leaves the live
context equal to `c` in every field, whatever live contexts `c1`, `c2` the
intermediate invocations are given, and whatever happened in between to the
state outside the process table and cursor. -/
theorem context_round_trip :
    (∀ (sym : lab3.symbols_t) (s : lab3.state_t), lab3.Reachable sym s →
      ∀ (c c1 : ctx_t) (s1 : lab3.state_t),
        s1.pcb = (lab3.scheduler s c).1.pcb →
        s1.executing = (lab3.scheduler s c).1.executing →
        (lab3.scheduler s1 c1).2 = c) ∧
    (∀ (sym : cw1.symbols_t) (T : Nat) (s : cw1.state_t), cw1.Reachable sym T s →
      ∀ (c c1 c2 : ctx_t) (s1 s2 : cw1.state_t),
        s1.pcb = (cw1.scheduler s c).1.pcb →
        s1.executing = (cw1.scheduler s c).1.executing →
        s2.pcb = (cw1.scheduler s1 c1).1.pcb →
        s2.executing = (cw1.scheduler s1 c1).1.executing →
        (cw1.scheduler s2 c2).2 = c) := by
  constructor
  · intro sym s h c c1 s1 hp he
    exact lab3_scheduler_roundtrip s s1 c c1 (lab3_inv_of_reachable sym s h) hp he
  · intro sym T s h c c1 c2 s1 s2 hp1 he1 hp2 he2
    exact cw1_scheduler_roundtrip s s1 s2 c c1 c2 (cw1_inv_of_reachable sym T s h)
      hp1 he1 hp2 he2

theorem context_round_trip_witness :
    (lab3.scheduler
      (lab3.scheduler (lab3.hilevel_handler_rst lab3.sym_ex lab3.state_zero ctx_zero).1 ctx_ex).1
      (lab3.scheduler (lab3.hilevel_handler_rst lab3.sym_ex lab3.state_zero ctx_zero).1
        ctx_ex).2).2 = ctx_ex ∧
    (cw1.scheduler
      (cw1.scheduler
        (cw1.scheduler (cw1.hilevel_handler_rst cw1.sym_ex cw1.state_zero ctx_zero).1 ctx_ex).1
        ctx_zero).1
      ctx_write_AB).2 = ctx_ex :=
  ⟨context_round_trip.1 lab3.sym_ex _ (lab3.Reachable.rst lab3.state_zero ctx_zero)
      ctx_ex _ _ rfl rfl,
   context_round_trip.2 cw1.sym_ex 36 _ (cw1.Reachable.rst cw1.state_zero ctx_zero)
      ctx_ex ctx_zero ctx_write_AB _ _ rfl rfl rfl rfl⟩

/-- C5: in both variants, starting from the state left by
`hilevel_handler_rst`, `N` consecutive scheduler invocations on arbitrary live
contexts (`N = 2` in lab3, `N = 3` in cw1) return the cursor `executing` to
the value it had right after reset (`0` in lab3, `3` in cw1). -/
theorem full_cycle_restores_cursor :
    (∀ (sym : lab3.symbols_t) (s : lab3.state_t) (c : ctx_t) (cs : Nat → ctx_t),
      (lab3.run cs 2 (lab3.hilevel_handler_rst sym s c).1).executing
        = (lab3.hilevel_handler_rst sym s c).1.executing) ∧
    (∀ (sym : cw1.symbols_t) (s : cw1.state_t) (c : ctx_t) (cs : Nat → ctx_t),
      (cw1.run cs 3 (cw1.hilevel_handler_rst sym s c).1).executing
        = (cw1.hilevel_handler_rst sym s c).1.executing) := by
  constructor
  · intro sym s c cs
    rw [lab3_run_executing cs 2 _ (lab3_rst_executing sym s c), lab3_rst_executing]
    rfl
  · intro sym s c cs
    rw [cw1_run_executing cs 3 _ (cw1_rst_executing sym s c), cw1_rst_executing]
    rfl

/-- C6: in both variants resumption follows the cyclic order of table
indices.  After the `k`-th scheduler invocation following reset (for every
`k`, on arbitrary live contexts) the PCB at table index `j` is EXECUTING
exactly when `j = k mod capacity`; hence among the `capacity` consecutive
invocations numbered `k + 1, ..., k + capacity` every table entry `j` is made
EXECUTING by exactly one. -/
theorem resumption_is_cyclic :
    (∀ (sym : lab3.symbols_t) (s : lab3.state_t) (c : ctx_t) (cs : Nat → ctx_t) (k : Nat),
      (∀ j : Fin 2, ((lab3.run cs k (lab3.hilevel_handler_rst sym s c).1).pcb j).status
          = status_t.STATUS_EXECUTING ↔ j.val = k % 2) ∧
      ∀ j : Fin 2, ∃! m : Nat, k < m ∧ m ≤ k + 2 ∧
        ((lab3.run cs m (lab3.hilevel_handler_rst sym s c).1).pcb j).status
          = status_t.STATUS_EXECUTING) ∧
    (∀ (sym : cw1.symbols_t) (s : cw1.state_t) (c : ctx_t) (cs : Nat → ctx_t) (k : Nat),
      (∀ j : Fin 3, ((cw1.run cs k (cw1.hilevel_handler_rst sym s c).1).pcb j).status
          = status_t.STATUS_EXECUTING ↔ j.val = k % 3) ∧
      ∀ j : Fin 3, ∃! m : Nat, k < m ∧ m ≤ k + 3 ∧
        ((cw1.run cs m (cw1.hilevel_handler_rst sym s c).1).pcb j).status
          = status_t.STATUS_EXECUTING) := by
  constructor
  · intro sym s c cs k
    refine ⟨fun j => lab3_run_status sym s c cs k j, fun j => ?_⟩
    have hj := j.isLt
    by_cases h1 : j.val = (k + 1) % 2
    · refine ⟨k + 1, ⟨by omega, by omega, (lab3_run_status sym s c cs (k + 1) j).2 h1⟩, ?_⟩
      rintro m ⟨hm1, hm2, hm3⟩
      have := (lab3_run_status sym s c cs m j).1 hm3
      omega
    · refine ⟨k + 2, ⟨by omega, by omega,
        (lab3_run_status sym s c cs (k + 2) j).2 (by omega)⟩, ?_⟩
      rintro m ⟨hm1, hm2, hm3⟩
      have := (lab3_run_status sym s c cs m j).1 hm3
      omega
  · intro sym s c cs k
    refine ⟨fun j => cw1_run_status sym s c cs k j, fun j => ?_⟩
    have hj := j.isLt
    by_cases h1 : j.val = (k + 1) % 3
    · refine ⟨k + 1, ⟨by omega, by omega, (cw1_run_status sym s c cs (k + 1) j).2 h1⟩, ?_⟩
      rintro m ⟨hm1, hm2, hm3⟩
      have := (cw1_run_status sym s c cs m j).1 hm3
      omega
    · by_cases h2 : j.val = (k + 2) % 3
      · refine ⟨k + 2, ⟨by omega, by omega, (cw1_run_status sym s c cs (k + 2) j).2 h2⟩, ?_⟩
        rintro m ⟨hm1, hm2, hm3⟩
        have := (cw1_run_status sym s c cs m j).1 hm3
        omega
      · refine ⟨k + 3, ⟨by omega, by omega,
          (cw1_run_status sym s c cs (k + 3) j).2 (by omega)⟩, ?_⟩
        rintro m ⟨hm1, hm2, hm3⟩
        have := (cw1_run_status sym s c cs m j).1 hm3
        omega

/-- C7: in lab3, in every reachable state and for every live context `c`,
`hilevel_handler_svc( ctx, 0 )` (yield) from cursor `i` sets the cursor to
`(i + 1) mod 2`, marks `pcb[i]` READY with `pcb[i].ctx = c`, marks the new
index EXECUTING, makes the live context equal to the stored context of the
new index, with no register of it overwritten, and performs no device
transmission. -/
theorem yield_transition (sym : lab3.symbols_t) (mem : Nat → Nat) (s : lab3.state_t)
    (c : ctx_t) (h : lab3.Reachable sym s) :
    ∃ i : Fin 2, s.executing = (i.val : Int) ∧
      (lab3.hilevel_handler_svc mem s c 0).1.executing = (((i.val + 1) % 2 : Nat) : Int) ∧
      ((lab3.hilevel_handler_svc mem s c 0).1.pcb i).status = status_t.STATUS_READY ∧
      ((lab3.hilevel_handler_svc mem s c 0).1.pcb i).ctx = c ∧
      ((lab3.hilevel_handler_svc mem s c 0).1.pcb (next_index Nat.two_pos i)).status
        = status_t.STATUS_EXECUTING ∧
      (lab3.hilevel_handler_svc mem s c 0).2 = (s.pcb (next_index Nat.two_pos i)).ctx ∧
      (lab3.hilevel_handler_svc mem s c 0).2
        = ((lab3.hilevel_handler_svc mem s c 0).1.pcb (next_index Nat.two_pos i)).ctx ∧
      (lab3.hilevel_handler_svc mem s c 0).1.trace = s.trace := by
  obtain ⟨i, hi, _, _, _⟩ := lab3_inv_of_reachable sym s h
  refine ⟨i, hi, ?_⟩
  fin_cases i <;> simp at hi <;>
    simp [lab3.hilevel_handler_svc, lab3.scheduler, hi, next_index, set_status, set_ctx,
      memcpy_ctx]

theorem yield_transition_witness :
    ∃ i : Fin 2,
      (lab3.hilevel_handler_rst lab3.sym_ex lab3.state_zero ctx_zero).1.executing
        = (i.val : Int) ∧
      (lab3.hilevel_handler_svc mem_AB
        (lab3.hilevel_handler_rst lab3.sym_ex lab3.state_zero ctx_zero).1 ctx_ex 0).1.executing
        = (((i.val + 1) % 2 : Nat) : Int) ∧
      ((lab3.hilevel_handler_svc mem_AB
        (lab3.hilevel_handler_rst lab3.sym_ex lab3.state_zero ctx_zero).1 ctx_ex 0).1.pcb i).ctx
        = ctx_ex := by
  obtain ⟨i, h1, h2, _, h4, _⟩ := yield_transition lab3.sym_ex mem_AB
    (lab3.hilevel_handler_rst lab3.sym_ex lab3.state_zero ctx_zero).1 ctx_ex
    (lab3.Reachable.rst lab3.state_zero ctx_zero)
  exact ⟨i, h1, h2, h4⟩

/-- C8: the write service (`hilevel_handler_svc` with id `0x01` in lab3,
`hilevel_handler_svc` in cw1), for every buffer pointer `p = gpr[1]` and
every length `n = gpr[2]` with `0 ≤ n ≤ 2^31 - 1`, issues exactly `n` calls
of the character-output device after whatever was transmitted before, the
`i`-th carrying the byte at the 32-bit address `p + i`, in increasing order
of `i`, and afterwards `gpr[0]` of the live context equals `n`.  When the
buffer does not run past the end of the 32-bit address space the address is
`p + i` without reduction. -/
theorem write_transmits_bytes_in_order :
    (∀ (mem : Nat → Nat) (s : lab3.state_t) (ctx : ctx_t), ctx.gpr 2 ≤ 2 ^ 31 - 1 →
      (lab3.hilevel_handler_svc mem s ctx 0x01).1.trace
        = s.trace ++ (List.range (ctx.gpr 2)).map
            (fun i => event_t.putc (mem ((ctx.gpr 1 + i) % 2 ^ 32))) ∧
      (ctx.gpr 1 + ctx.gpr 2 ≤ 2 ^ 32 →
        (lab3.hilevel_handler_svc mem s ctx 0x01).1.trace
          = s.trace ++ (List.range (ctx.gpr 2)).map
              (fun i => event_t.putc (mem (ctx.gpr 1 + i)))) ∧
      (lab3.hilevel_handler_svc mem s ctx 0x01).2.gpr 0 = ctx.gpr 2) ∧
    (∀ (mem : Nat → Nat) (s : cw1.state_t) (ctx : ctx_t), ctx.gpr 2 ≤ 2 ^ 31 - 1 →
      (cw1.hilevel_handler_svc mem s ctx).1.trace
        = s.trace ++ (List.range (ctx.gpr 2)).map
            (fun i => event_t.putc (mem ((ctx.gpr 1 + i) % 2 ^ 32))) ∧
      (ctx.gpr 1 + ctx.gpr 2 ≤ 2 ^ 32 →
        (cw1.hilevel_handler_svc mem s ctx).1.trace
          = s.trace ++ (List.range (ctx.gpr 2)).map
              (fun i => event_t.putc (mem (ctx.gpr 1 + i)))) ∧
      (cw1.hilevel_handler_svc mem s ctx).2.gpr 0 = ctx.gpr 2) := by
  constructor
  · intro mem s ctx hn
    have ht : (lab3.hilevel_handler_svc mem s ctx 0x01).1.trace
        = s.trace ++ (List.range (ctx.gpr 2)).map
            (fun i => event_t.putc (mem ((ctx.gpr 1 + i) % 2 ^ 32))) :=
      write_trace mem s.trace (ctx.gpr 1) (ctx.gpr 2) hn
    refine ⟨ht, fun hw => ?_, ?_⟩
    · rw [ht, write_trace_no_wrap mem _ _ hw]
    · show Function.update ctx.gpr 0 (of_int (to_int (ctx.gpr 2))) 0 = ctx.gpr 2
      rw [Function.update_same, to_int_of_small _ hn, of_int_of_small _ hn]
  · intro mem s ctx hn
    have ht : (cw1.hilevel_handler_svc mem s ctx).1.trace
        = s.trace ++ (List.range (ctx.gpr 2)).map
            (fun i => event_t.putc (mem ((ctx.gpr 1 + i) % 2 ^ 32))) :=
      write_trace mem s.trace (ctx.gpr 1) (ctx.gpr 2) hn
    refine ⟨ht, fun hw => ?_, ?_⟩
    · rw [ht, write_trace_no_wrap mem _ _ hw]
    · show Function.update ctx.gpr 0 (of_int (to_int (ctx.gpr 2))) 0 = ctx.gpr 2
      rw [Function.update_same, to_int_of_small _ hn, of_int_of_small _ hn]

theorem write_AB_witness :
    ((lab3.hilevel_handler_svc mem_AB lab3.state_zero ctx_write_AB 0x01).1.trace
        = [event_t.putc 65, event_t.putc 66] ∧
      (lab3.hilevel_handler_svc mem_AB lab3.state_zero ctx_write_AB 0x01).2.gpr 0 = 2) ∧
    ((cw1.hilevel_handler_svc mem_AB cw1.state_zero ctx_write_AB).1.trace
        = [event_t.putc 65, event_t.putc 66] ∧
      (cw1.hilevel_handler_svc mem_AB cw1.state_zero ctx_write_AB).2.gpr 0 = 2) :=
  ⟨⟨((write_transmits_bytes_in_order.1 mem_AB lab3.state_zero ctx_write_AB
        (by decide)).2.1 (by decide)).trans (by decide),
    ((write_transmits_bytes_in_order.1 mem_AB lab3.state_zero ctx_write_AB
        (by decide)).2.2).trans (by decide)⟩,
   ⟨((write_transmits_bytes_in_order.2 mem_AB cw1.state_zero ctx_write_AB
        (by decide)).2.1 (by decide)).trans (by decide),
    ((write_transmits_bytes_in_order.2 mem_AB cw1.state_zero ctx_write_AB
        (by decide)).2.2).trans (by decide)⟩⟩

/-- C9: in lab3, for every request id other than `0x00` and `0x01` and every
state, `hilevel_handler_svc( ctx, id )` returns the state and the live
context it was given: the return register `gpr[0]` and every other field of
the live context, the process table and the cursor are unchanged, and the
device trace gains no entry.  The handler has no error result. -/
theorem unsupported_id_is_noop (mem : Nat → Nat) (s : lab3.state_t) (ctx : ctx_t) (id : Nat)
    (h0 : id ≠ 0x00) (h1 : id ≠ 0x01) :
    lab3.hilevel_handler_svc mem s ctx id = (s, ctx) := by
  match id, h0, h1 with
  | 0, h0, _ => exact absurd rfl h0
  | 1, _, h1 => exact absurd rfl h1
  | _ + 2, _, _ => rfl

theorem unsupported_id_is_noop_witness :
    (2 : Nat) ≠ 0x00 ∧ (2 : Nat) ≠ 0x01 ∧
    lab3.hilevel_handler_svc mem_AB lab3.state_zero ctx_write_AB 2
      = (lab3.state_zero, ctx_write_AB) :=
  ⟨by decide, by decide,
    unsupported_id_is_noop mem_AB lab3.state_zero ctx_write_AB 2 (by decide) (by decide)⟩

/-- C10: in cw1, for every identifier `iar` read from the acknowledge
register (timer source or not) and every kernel state, `hilevel_handler_irq`
reads `GICC0->IAR` once, as its first step, and writes that same identifier
to `GICC0->EOIR` exactly once, as its last step: the steps it performs, in
program order, are the read, then (when the source is the timer) the call of
the scheduler and the `Timer1IntClr` write, then the EOIR write, so the EOIR
write comes after the scheduler call and the flag clear when these occur; the
device trace gains exactly the read, the optional `Timer1IntClr` write and
the EOIR write, in that order. -/
theorem irq_completes_exactly_once ( GIC_SOURCE_TIMER0 : Nat) (iar : Nat) (s : cw1.state_t)
    (ctx : ctx_t) :
    (cw1.hilevel_handler_irq GIC_SOURCE_TIMER0 iar s ctx).1.steps
      = s.steps ++ ([step_t.dev (event_t.rd reg_t.GICC0_IAR iar)]
          ++ (if iar = GIC_SOURCE_TIMER0 then
                [step_t.call_scheduler, step_t.dev (event_t.wr reg_t.TIMER0_Timer1IntClr 0x01)]
              else [])
          ++ [step_t.dev (event_t.wr reg_t.GICC0_EOIR iar)]) ∧
    (cw1.hilevel_handler_irq GIC_SOURCE_TIMER0 iar s ctx).1.trace
      = s.trace ++ ([event_t.rd reg_t.GICC0_IAR iar]
          ++ (if iar = GIC_SOURCE_TIMER0 then [event_t.wr reg_t.TIMER0_Timer1IntClr 0x01] else [])
          ++ [event_t.wr reg_t.GICC0_EOIR iar]) ∧
    (cw1.hilevel_handler_irq GIC_SOURCE_TIMER0 iar s ctx).1.regs reg_t.GICC0_EOIR = iar := by
  refine ⟨(cw1_irq_steps GIC_SOURCE_TIMER0 iar s ctx).1,
    (cw1_irq_steps GIC_SOURCE_TIMER0 iar s ctx).2, ?_⟩
  by_cases hT : iar = GIC_SOURCE_TIMER0
  · simp [cw1.hilevel_handler_irq, hT, cw1.reg_write]
  · simp [cw1.hilevel_handler_irq, hT, cw1.reg_write]

/-- C11: in both variants, for every prior state and caller-supplied
context, after `hilevel_handler_rst` the PCB at table index `i` has its pid
assigned sequentially in table order (`1, 2` in lab3; `3, 4, 5` in cw1),
`ctx.pc` equal to the entry point of the `i`-th program, `ctx.sp` equal to
its top-of-stack address, `ctx.cpsr = 0x50` and every other context register
zero; the PCB at index `0` is EXECUTING and all others are READY; the cursor
designates index `0`; and the live context equals `pcb[0].ctx`. -/
theorem reset_populates_table :
    (∀ (sym : lab3.symbols_t) (s : lab3.state_t) (ctx : ctx_t),
      (lab3.hilevel_handler_rst sym s ctx).1.pcb 0
        = { pid := 1, status := status_t.STATUS_EXECUTING,
            ctx := { cpsr := 0x50, pc := sym.main_P1, gpr := fun _ => 0,
                     sp := sym.tos_P1, lr := 0 } } ∧
      (lab3.hilevel_handler_rst sym s ctx).1.pcb 1
        = { pid := 2, status := status_t.STATUS_READY,
            ctx := { cpsr := 0x50, pc := sym.main_P2, gpr := fun _ => 0,
                     sp := sym.tos_P2, lr := 0 } } ∧
      (lab3.hilevel_handler_rst sym s ctx).1.executing = lab3.designator 0 ∧
      (lab3.hilevel_handler_rst sym s ctx).2
        = ((lab3.hilevel_handler_rst sym s ctx).1.pcb 0).ctx) ∧
    (∀ (sym : cw1.symbols_t) (s : cw1.state_t) (ctx : ctx_t),
      (cw1.hilevel_handler_rst sym s ctx).1.pcb 0
        = { pid := 3, status := status_t.STATUS_EXECUTING,
            ctx := { cpsr := 0x50, pc := sym.main_P3, gpr := fun _ => 0,
                     sp := sym.tos_P3, lr := 0 } } ∧
      (cw1.hilevel_handler_rst sym s ctx).1.pcb 1
        = { pid := 4, status := status_t.STATUS_READY,
            ctx := { cpsr := 0x50, pc := sym.main_P4, gpr := fun _ => 0,
                     sp := sym.tos_P4, lr := 0 } } ∧
      (cw1.hilevel_handler_rst sym s ctx).1.pcb 2
        = { pid := 5, status := status_t.STATUS_READY,
            ctx := { cpsr := 0x50, pc := sym.main_P5, gpr := fun _ => 0,
                     sp := sym.tos_P5, lr := 0 } } ∧
      (cw1.hilevel_handler_rst sym s ctx).1.executing = cw1.designator 0 ∧
      (cw1.hilevel_handler_rst sym s ctx).2
        = ((cw1.hilevel_handler_rst sym s ctx).1.pcb 0).ctx) := by
  constructor
  · intro sym s ctx
    simp [lab3.hilevel_handler_rst, set_status, pcb_init, memcpy_ctx, lab3.designator]
  · intro sym s ctx
    simp [cw1.hilevel_handler_rst, cw1.rst_select, cw1.int_enable_irq, cw1.rst_pcbs,
      set_status, pcb_init, memcpy_ctx, cw1.designator]

/-! ## The interrupt handler and the scheduler -/

theorem cw1_scheduler_any_trace (s : cw1.state_t) (tr : List event_t) (c : ctx_t) :
    cw1.scheduler { s with trace := tr } c
      = ({ (cw1.scheduler s c).1 with trace := tr }, (cw1.scheduler s c).2) := by
  unfold cw1.scheduler
  split_ifs <;> rfl

theorem cw1_irq_timer (T : Nat) (s : cw1.state_t) (ctx : ctx_t) :
    (cw1.hilevel_handler_irq T T s ctx).1.pcb = (cw1.scheduler s ctx).1.pcb ∧
    (cw1.hilevel_handler_irq T T s ctx).1.executing = (cw1.scheduler s ctx).1.executing ∧
    (cw1.hilevel_handler_irq T T s ctx).2 = (cw1.scheduler s ctx).2 := by
  have f := cw1_scheduler_frame s
    { cw1.reg_read reg_t.GICC0_IAR T s with
      steps := (cw1.reg_read reg_t.GICC0_IAR T s).steps ++ [step_t.call_scheduler] }
    ctx rfl rfl
  simpa [cw1.hilevel_handler_irq, cw1.reg_write] using f

theorem cw1_irq_other (T iar : Nat) (h : iar ≠ T) (s : cw1.state_t) (ctx : ctx_t) :
    (cw1.hilevel_handler_irq T iar s ctx).1.pcb = s.pcb ∧
    (cw1.hilevel_handler_irq T iar s ctx).1.executing = s.executing ∧
    (cw1.hilevel_handler_irq T iar s ctx).2 = ctx := by
  simp [cw1.hilevel_handler_irq, cw1.reg_write, cw1.reg_read, h]

theorem cw1_ticks_executing (T : Nat) (cs : Nat → ctx_t) (k : Nat) (s : cw1.state_t)
    (h : s.executing = 3) :
    (cw1.ticks T cs k s).executing = 3 + ((k % 3 : Nat) : Int) := by
  induction k with
  | zero => simpa [cw1.ticks] using h
  | succ k ih =>
    show (cw1.hilevel_handler_irq T T (cw1.ticks T cs k s) (cs k)).1.executing = _
    rw [(cw1_irq_timer T _ _).2.1]
    exact cw1_scheduler_executing _ _ k ih

theorem lab3_scheduler_noop (s : lab3.state_t) (c : ctx_t)
    (h0 : s.executing ≠ 0) (h1 : s.executing ≠ 1) : lab3.scheduler s c = (s, c) := by
  simp [lab3.scheduler, h0, h1]

theorem cw1_scheduler_noop (s : cw1.state_t) (c : ctx_t)
    (h3 : s.executing ≠ 3) (h4 : s.executing ≠ 4) (h5 : s.executing ≠ 5) :
    cw1.scheduler s c = (s, c) := by
  simp [cw1.scheduler, h3, h4, h5]

theorem cw1_ticks_stuck (T : Nat) (cs : Nat → ctx_t) (k : Nat) (s : cw1.state_t)
    (h3 : s.executing ≠ 3) (h4 : s.executing ≠ 4) (h5 : s.executing ≠ 5) :
    (cw1.ticks T cs k s).executing = s.executing ∧ (cw1.ticks T cs k s).pcb = s.pcb := by
  induction k with
  | zero => exact ⟨rfl, rfl⟩
  | succ k ih =>
    have e : (cw1.ticks T cs (k + 1) s)
        = (cw1.hilevel_handler_irq T T (cw1.ticks T cs k s) (cs k)).1 := rfl
    have hn := cw1_scheduler_noop (cw1.ticks T cs k s) (cs k)
      (by rw [ih.1]; exact h3) (by rw [ih.1]; exact h4) (by rw [ih.1]; exact h5)
    rw [e, (cw1_irq_timer T _ _).2.1, (cw1_irq_timer T _ _).1, hn]
    exact ih

/-- C12, as stated, fails: from a `cw1` state whose cursor is `0`, five timer
interrupts leave `executing` at `0` each time, not at `1, 2, 0, 1, 2`. -/
theorem cw1_cursor_zero_never_moves :
    cw1.state_cursor_zero.executing = 0 ∧
    cw1.observed_executing 36 (fun _ => ctx_zero) 5 cw1.state_cursor_zero = [0, 0, 0, 0, 0] ∧
    cw1.observed_executing 36 (fun _ => ctx_zero) 5 cw1.state_cursor_zero ≠ [1, 2, 0, 1, 2] := by
  have h : cw1.observed_executing 36 (fun _ => ctx_zero) 5 cw1.state_cursor_zero
      = [0, 0, 0, 0, 0] := by
    have hs : ∀ k, (cw1.ticks 36 (fun _ => ctx_zero) k cw1.state_cursor_zero).executing = 0 :=
      fun k => (cw1_ticks_stuck 36 _ k cw1.state_cursor_zero
        (by decide) (by decide) (by decide)).1
    simp [cw1.observed_executing, List.range_succ, hs]
  refine ⟨rfl, h, ?_⟩
  rw [h]
  decide

/-- C12 (amended): in cw1, starting from a state with `executing = 3` (the
value set by reset, designating table index `0`), firing the timer interrupt
five times makes `executing` take the values `4, 5, 3, 4, 5` in that order,
one after each interrupt: the table indices `1, 2, 0, 1, 2`. -/
theorem timer_sequence_from_reset_cursor ( GIC_SOURCE_TIMER0 : Nat) (cs : Nat → ctx_t)
    (s : cw1.state_t) (h : s.executing = 3) :
    cw1.observed_executing GIC_SOURCE_TIMER0 cs 5 s = [4, 5, 3, 4, 5] := by
  simp [cw1.observed_executing, List.range_succ, cw1_ticks_executing _ cs _ s h]

theorem timer_sequence_from_reset_cursor_witness :
    (cw1.hilevel_handler_rst cw1.sym_ex cw1.state_zero ctx_zero).1.executing = 3 ∧
    cw1.observed_executing 36 (fun _ => ctx_ex) 5
      (cw1.hilevel_handler_rst cw1.sym_ex cw1.state_zero ctx_zero).1 = [4, 5, 3, 4, 5] :=
  ⟨rfl, timer_sequence_from_reset_cursor 36 (fun _ => ctx_ex) _ rfl⟩

/-! ## Frame lemmas -/

theorem lab3_scheduler_pid (s : lab3.state_t) (c : ctx_t) (j : Fin 2) :
    ((lab3.scheduler s c).1.pcb j).pid = (s.pcb j).pid := by
  unfold lab3.scheduler
  split_ifs <;> fin_cases j <;> simp [set_status, set_ctx]

theorem cw1_scheduler_pid (s : cw1.state_t) (c : ctx_t) (j : Fin 3) :
    ((cw1.scheduler s c).1.pcb j).pid = (s.pcb j).pid := by
  unfold cw1.scheduler
  split_ifs <;> fin_cases j <;> simp [set_status, set_ctx]

theorem lab3_svc_pid (mem : Nat → Nat) (s : lab3.state_t) (c : ctx_t) (id : Nat) (j : Fin 2) :
    ((lab3.hilevel_handler_svc mem s c id).1.pcb j).pid = (s.pcb j).pid := by
  match id with
  | 0 => exact lab3_scheduler_pid { s with steps := s.steps ++ [step_t.call_scheduler] } c j
  | 1 => rfl
  | _ + 2 => rfl

theorem cw1_irq_pid (T iar : Nat) (s : cw1.state_t) (c : ctx_t) (j : Fin 3) :
    ((cw1.hilevel_handler_irq T iar s c).1.pcb j).pid = (s.pcb j).pid := by
  by_cases h : iar = T
  · subst h
    rw [(cw1_irq_timer iar s c).1]
    exact cw1_scheduler_pid s c j
  · rw [(cw1_irq_other T iar h s c).1]

/-- C13: the write service is not a suspension point.  In both variants, for
every state and every argument values, it leaves the cursor `executing` and
the whole process table unchanged (in cw1 the device registers too), and in
the live context it leaves `pc`, `sp`, `lr`, `cpsr` and every `gpr[j]` with
`j ≠ 0` unchanged. -/
theorem write_keeps_table_and_cursor :
    (∀ (mem : Nat → Nat) (s : lab3.state_t) (ctx : ctx_t),
      (lab3.hilevel_handler_svc mem s ctx 0x01).1.pcb = s.pcb ∧
      (lab3.hilevel_handler_svc mem s ctx 0x01).1.executing = s.executing ∧
      (lab3.hilevel_handler_svc mem s ctx 0x01).2.pc = ctx.pc ∧
      (lab3.hilevel_handler_svc mem s ctx 0x01).2.sp = ctx.sp ∧
      (lab3.hilevel_handler_svc mem s ctx 0x01).2.lr = ctx.lr ∧
      (lab3.hilevel_handler_svc mem s ctx 0x01).2.cpsr = ctx.cpsr ∧
      ∀ j : Fin 13, j ≠ 0 → (lab3.hilevel_handler_svc mem s ctx 0x01).2.gpr j = ctx.gpr j) ∧
    (∀ (mem : Nat → Nat) (s : cw1.state_t) (ctx : ctx_t),
      (cw1.hilevel_handler_svc mem s ctx).1.pcb = s.pcb ∧
      (cw1.hilevel_handler_svc mem s ctx).1.executing = s.executing ∧
      (cw1.hilevel_handler_svc mem s ctx).1.regs = s.regs ∧
      (cw1.hilevel_handler_svc mem s ctx).2.pc = ctx.pc ∧
      (cw1.hilevel_handler_svc mem s ctx).2.sp = ctx.sp ∧
      (cw1.hilevel_handler_svc mem s ctx).2.lr = ctx.lr ∧
      (cw1.hilevel_handler_svc mem s ctx).2.cpsr = ctx.cpsr ∧
      ∀ j : Fin 13, j ≠ 0 → (cw1.hilevel_handler_svc mem s ctx).2.gpr j = ctx.gpr j) := by
  constructor
  · intro mem s ctx
    refine ⟨rfl, rfl, rfl, rfl, rfl, rfl, fun j hj => ?_⟩
    show Function.update ctx.gpr 0 _ j = ctx.gpr j
    exact Function.update_noteq hj _ _
  · intro mem s ctx
    refine ⟨rfl, rfl, rfl, rfl, rfl, rfl, rfl, fun j hj => ?_⟩
    show Function.update ctx.gpr 0 _ j = ctx.gpr j
    exact Function.update_noteq hj _ _

theorem write_keeps_table_and_cursor_witness :
    (lab3.hilevel_handler_svc mem_AB lab3.state_zero ctx_write_AB 0x01).2.gpr 1 = 0x1000 ∧
    (cw1.hilevel_handler_svc mem_AB cw1.state_zero ctx_write_AB).2.gpr 2 = 2 :=
  ⟨((write_keeps_table_and_cursor.1 mem_AB lab3.state_zero ctx_write_AB).2.2.2.2.2.2 1
      (by decide)).trans (by decide),
   ((write_keeps_table_and_cursor.2 mem_AB cw1.state_zero ctx_write_AB).2.2.2.2.2.2.2 2
      (by decide)).trans (by decide)⟩

/-- C14: in both variants table membership is immutable after reset.  No
call of `scheduler`, `hilevel_handler_irq` or `hilevel_handler_svc` changes
the pid of any PCB, from any state; and one scheduler invocation leaves
entirely unchanged every PCB that is neither the outgoing one (the entry the
cursor designates) nor the incoming one (its cyclic successor), which in cw1
is the third entry. -/
theorem table_membership_immutable :
    ((∀ (s : lab3.state_t) (c : ctx_t) (j : Fin 2),
        ((lab3.scheduler s c).1.pcb j).pid = (s.pcb j).pid) ∧
      (∀ (mem : Nat → Nat) (s : lab3.state_t) (c : ctx_t) (id : Nat) (j : Fin 2),
        ((lab3.hilevel_handler_svc mem s c id).1.pcb j).pid = (s.pcb j).pid) ∧
      (∀ (s : lab3.state_t) (c : ctx_t) (j : Fin 2),
        (∀ i : Fin 2, s.executing = lab3.designator i → j ≠ i ∧ j ≠ next_index Nat.two_pos i) →
        (lab3.scheduler s c).1.pcb j = s.pcb j)) ∧
    ((∀ (s : cw1.state_t) (c : ctx_t) (j : Fin 3),
        ((cw1.scheduler s c).1.pcb j).pid = (s.pcb j).pid) ∧
      (∀ (T iar : Nat) (s : cw1.state_t) (c : ctx_t) (j : Fin 3),
        ((cw1.hilevel_handler_irq T iar s c).1.pcb j).pid = (s.pcb j).pid) ∧
      (∀ (mem : Nat → Nat) (s : cw1.state_t) (c : ctx_t) (j : Fin 3),
        ((cw1.hilevel_handler_svc mem s c).1.pcb j).pid = (s.pcb j).pid) ∧
      (∀ (s : cw1.state_t) (c : ctx_t) (j : Fin 3),
        (∀ i : Fin 3, s.executing = cw1.designator i →
          j ≠ i ∧ j ≠ next_index (Nat.succ_pos 2) i) →
        (cw1.scheduler s c).1.pcb j = s.pcb j)) := by
  refine ⟨⟨lab3_scheduler_pid, lab3_svc_pid, ?_⟩,
    ⟨cw1_scheduler_pid, cw1_irq_pid, fun _ _ _ _ => rfl, ?_⟩⟩
  · intro s c j hj
    have h0 := hj 0
    have h1 := hj 1
    simp [lab3.designator, next_index] at h0 h1
    unfold lab3.scheduler
    split_ifs with e0 e1
    · have := h0 e0
      fin_cases j <;> simp at this
    · have := h1 e1
      fin_cases j <;> simp at this
    · rfl
  · intro s c j hj
    have h0 := hj 0
    have h1 := hj 1
    have h2 := hj 2
    simp [cw1.designator, next_index] at h0 h1 h2
    unfold cw1.scheduler
    split_ifs with e3 e4 e5
    · have := h0 e3
      fin_cases j <;> simp at this
      simp [set_status, set_ctx]
    · have := h1 e4
      fin_cases j <;> simp at this
      simp [set_status, set_ctx]
    · have := h2 e5
      fin_cases j <;> simp at this
      simp [set_status, set_ctx]
    · rfl

theorem table_membership_immutable_witness :
    (cw1.scheduler (cw1.hilevel_handler_rst cw1.sym_ex cw1.state_zero ctx_zero).1 ctx_ex).1.pcb 2
      = (cw1.hilevel_handler_rst cw1.sym_ex cw1.state_zero ctx_zero).1.pcb 2 :=
  table_membership_immutable.2.2.2.2
    (cw1.hilevel_handler_rst cw1.sym_ex cw1.state_zero ctx_zero).1 ctx_ex 2
    (by
      intro i hi
      have h3 : (cw1.hilevel_handler_rst cw1.sym_ex cw1.state_zero ctx_zero).1.executing = 3 :=
        rfl
      rw [h3] at hi
      fin_cases i <;> simp [cw1.designator] at hi
      decide)

/-! ## The length register as a signed `int` -/

theorem to_int_of_large (v : Nat) (h1 : 2 ^ 31 ≤ v) (h2 : v < 2 ^ 32) :
    to_int v = (v : Int) - 2 ^ 32 := by
  have hm : v % 2 ^ 32 = v := Nat.mod_eq_of_lt h2
  have hn : ¬ v < 2 ^ 31 := by omega
  unfold to_int
  rw [hm, if_neg hn]

theorem of_int_of_large (v : Nat) (h1 : 2 ^ 31 ≤ v) (h2 : v < 2 ^ 32) :
    of_int ((v : Int) - 2 ^ 32) = v := by
  unfold of_int
  have : ((v : Int) - 2 ^ 32) % 2 ^ 32 = (v : Int) := by omega
  rw [this]
  simp

theorem putc_count_append_putcs (f : Nat → Nat) (tr : List event_t) (k : Nat) :
    putc_count (tr ++ (List.range k).map (fun i => event_t.putc (f i)))
      = putc_count tr + k := by
  have hmap : ∀ l : List Nat, putc_count (l.map (fun i => event_t.putc (f i))) = l.length := by
    intro l
    induction l with
    | nil => rfl
    | cons a l ih => simp [putc_count, ih]
  have happ : ∀ a b : List event_t, putc_count (a ++ b) = putc_count a + putc_count b := by
    intro a b
    induction a with
    | nil => simp [putc_count]
    | cons e a ih =>
      cases e <;> simp [putc_count, ih]
      omega
  rw [happ, hmap, List.length_range]

/-- C15, as stated, fails: with `gpr[2] = 0x80000000` the write service
transmits no byte (the trace is unchanged) and stores `0x80000000`, not `0`,
in `gpr[0]`; so in both variants. -/
theorem write_negative_length_reports_nonzero :
    ((lab3.hilevel_handler_svc mem_AB lab3.state_zero ctx_write_neg 0x01).1.trace
        = lab3.state_zero.trace ∧
      (lab3.hilevel_handler_svc mem_AB lab3.state_zero ctx_write_neg 0x01).2.gpr 0
        = 0x80000000) ∧
    ((cw1.hilevel_handler_svc mem_AB cw1.state_zero ctx_write_neg).1.trace
        = cw1.state_zero.trace ∧
      (cw1.hilevel_handler_svc mem_AB cw1.state_zero ctx_write_neg).2.gpr 0
        = 0x80000000) := by
  decide

/-- C15 (amended): for every 32-bit value `v` of the length register
`gpr[2]`, the write service stores `v` back in the return register `gpr[0]`.
When `v ≤ 2^31 - 1` that value equals the number of bytes it transmitted to
the character-output device, one for each index `i` in `[0, v)`.  When
`v ≥ 2^31` the length is negative as an `int` and no byte is transmitted. -/
theorem write_reports_signed_length :
    (∀ (mem : Nat → Nat) (s : lab3.state_t) (ctx : ctx_t), ctx.gpr 2 < 2 ^ 32 →
      (lab3.hilevel_handler_svc mem s ctx 0x01).2.gpr 0 = ctx.gpr 2 ∧
      (ctx.gpr 2 < 2 ^ 31 →
        putc_count (lab3.hilevel_handler_svc mem s ctx 0x01).1.trace
          = putc_count s.trace + (lab3.hilevel_handler_svc mem s ctx 0x01).2.gpr 0) ∧
      (2 ^ 31 ≤ ctx.gpr 2 → (lab3.hilevel_handler_svc mem s ctx 0x01).1.trace = s.trace)) ∧
    (∀ (mem : Nat → Nat) (s : cw1.state_t) (ctx : ctx_t), ctx.gpr 2 < 2 ^ 32 →
      (cw1.hilevel_handler_svc mem s ctx).2.gpr 0 = ctx.gpr 2 ∧
      (ctx.gpr 2 < 2 ^ 31 →
        putc_count (cw1.hilevel_handler_svc mem s ctx).1.trace
          = putc_count s.trace + (cw1.hilevel_handler_svc mem s ctx).2.gpr 0) ∧
      (2 ^ 31 ≤ ctx.gpr 2 → (cw1.hilevel_handler_svc mem s ctx).1.trace = s.trace)) := by
  have key : ∀ (mem : Nat → Nat) (tr : List event_t) (p v : Nat), v < 2 ^ 32 →
      of_int (to_int v) = v ∧
      (v < 2 ^ 31 →
        putc_count (putc_loop mem (to_int v).toNat (p % 2 ^ 32) tr) = putc_count tr + v) ∧
      (2 ^ 31 ≤ v → putc_loop mem (to_int v).toNat (p % 2 ^ 32) tr = tr) := by
    intro mem tr p v hv
    refine ⟨?_, fun hs => ?_, fun hl => ?_⟩
    · by_cases hs : v < 2 ^ 31
      · rw [to_int_of_small v (by omega), of_int_of_small v (by omega)]
      · rw [to_int_of_large v (by omega) hv, of_int_of_large v (by omega) hv]
    · rw [write_trace mem tr p v (by omega), putc_count_append_putcs]
    · rw [to_int_of_large v hl hv]
      have : ((v : Int) - 2 ^ 32).toNat = 0 := by omega
      rw [this]
      rfl
  constructor
  · intro mem s ctx hv
    obtain ⟨k1, k2, k3⟩ := key mem s.trace (ctx.gpr 1) (ctx.gpr 2) hv
    have hg : (lab3.hilevel_handler_svc mem s ctx 0x01).2.gpr 0 = ctx.gpr 2 := by
      show Function.update ctx.gpr 0 (of_int (to_int (ctx.gpr 2))) 0 = ctx.gpr 2
      rw [Function.update_same, k1]
    refine ⟨hg, fun hs => ?_, fun hl => k3 hl⟩
    rw [hg]
    exact k2 hs
  · intro mem s ctx hv
    obtain ⟨k1, k2, k3⟩ := key mem s.trace (ctx.gpr 1) (ctx.gpr 2) hv
    have hg : (cw1.hilevel_handler_svc mem s ctx).2.gpr 0 = ctx.gpr 2 := by
      show Function.update ctx.gpr 0 (of_int (to_int (ctx.gpr 2))) 0 = ctx.gpr 2
      rw [Function.update_same, k1]
    refine ⟨hg, fun hs => ?_, fun hl => k3 hl⟩
    rw [hg]
    exact k2 hs

theorem write_reports_signed_length_witness :
    (putc_count (lab3.hilevel_handler_svc mem_AB lab3.state_zero ctx_write_AB 0x01).1.trace
        = putc_count lab3.state_zero.trace
          + (lab3.hilevel_handler_svc mem_AB lab3.state_zero ctx_write_AB 0x01).2.gpr 0) ∧
    ((cw1.hilevel_handler_svc mem_AB cw1.state_zero ctx_write_neg).1.trace
        = cw1.state_zero.trace) :=
  ⟨(write_reports_signed_length.1 mem_AB lab3.state_zero ctx_write_AB (by decide)).2.1
      (by decide),
   (write_reports_signed_length.2 mem_AB cw1.state_zero ctx_write_neg (by decide)).2.2
      (by decide)⟩

/-- C16: in cw1, `hilevel_handler_irq` invokes the scheduler if and only if
the acknowledged identifier equals `GIC_SOURCE_TIMER0`.  When it does, the
resulting live context, process table and cursor equal those produced by one
`scheduler( ctx )` call, and the steps of the handler, in program order, are
the IAR read, the scheduler call, the `Timer1IntClr` write (of `0x01`) and
the EOIR write: the pending flag is cleared after that call.  When it does
not, the live context, process table and cursor are unchanged, the steps are
the IAR read and the EOIR write only, with no scheduler call, and
`Timer1IntClr` is not written. -/
theorem irq_schedules_iff_timer ( GIC_SOURCE_TIMER0 : Nat) (iar : Nat) (s : cw1.state_t)
    (ctx : ctx_t) :
    (iar = GIC_SOURCE_TIMER0 →
      (cw1.hilevel_handler_irq GIC_SOURCE_TIMER0 iar s ctx).2 = (cw1.scheduler s ctx).2 ∧
      (cw1.hilevel_handler_irq GIC_SOURCE_TIMER0 iar s ctx).1.pcb
        = (cw1.scheduler s ctx).1.pcb ∧
      (cw1.hilevel_handler_irq GIC_SOURCE_TIMER0 iar s ctx).1.executing
        = (cw1.scheduler s ctx).1.executing ∧
      (cw1.hilevel_handler_irq GIC_SOURCE_TIMER0 iar s ctx).1.steps
        = s.steps ++ [step_t.dev (event_t.rd reg_t.GICC0_IAR iar),
            step_t.call_scheduler,
            step_t.dev (event_t.wr reg_t.TIMER0_Timer1IntClr 0x01),
            step_t.dev (event_t.wr reg_t.GICC0_EOIR iar)] ∧
      (cw1.hilevel_handler_irq GIC_SOURCE_TIMER0 iar s ctx).1.trace
        = s.trace ++ [event_t.rd reg_t.GICC0_IAR iar,
            event_t.wr reg_t.TIMER0_Timer1IntClr 0x01, event_t.wr reg_t.GICC0_EOIR iar] ∧
      (cw1.hilevel_handler_irq GIC_SOURCE_TIMER0 iar s ctx).1.regs reg_t.TIMER0_Timer1IntClr
        = 0x01) ∧
    (iar ≠ GIC_SOURCE_TIMER0 →
      (cw1.hilevel_handler_irq GIC_SOURCE_TIMER0 iar s ctx).2 = ctx ∧
      (cw1.hilevel_handler_irq GIC_SOURCE_TIMER0 iar s ctx).1.pcb = s.pcb ∧
      (cw1.hilevel_handler_irq GIC_SOURCE_TIMER0 iar s ctx).1.executing = s.executing ∧
      (cw1.hilevel_handler_irq GIC_SOURCE_TIMER0 iar s ctx).1.steps
        = s.steps ++ [step_t.dev (event_t.rd reg_t.GICC0_IAR iar),
            step_t.dev (event_t.wr reg_t.GICC0_EOIR iar)] ∧
      (cw1.hilevel_handler_irq GIC_SOURCE_TIMER0 iar s ctx).1.trace
        = s.trace ++ [event_t.rd reg_t.GICC0_IAR iar, event_t.wr reg_t.GICC0_EOIR iar] ∧
      (cw1.hilevel_handler_irq GIC_SOURCE_TIMER0 iar s ctx).1.regs reg_t.TIMER0_Timer1IntClr
        = s.regs reg_t.TIMER0_Timer1IntClr) ∧
    (step_t.call_scheduler ∈
        (cw1.hilevel_handler_irq GIC_SOURCE_TIMER0 iar s ctx).1.steps.drop s.steps.length
      ↔ iar = GIC_SOURCE_TIMER0) := by
  obtain ⟨hs, ht⟩ := cw1_irq_steps GIC_SOURCE_TIMER0 iar s ctx
  refine ⟨fun h => ?_, fun h => ?_, ?_⟩
  · rw [if_pos h] at hs ht
    subst h
    refine ⟨(cw1_irq_timer iar s ctx).2.2, (cw1_irq_timer iar s ctx).1,
      (cw1_irq_timer iar s ctx).2.1, by simpa using hs, by simpa using ht, ?_⟩
    simp [cw1.hilevel_handler_irq, cw1.reg_write]
  · rw [if_neg h] at hs ht
    refine ⟨(cw1_irq_other _ iar h s ctx).2.2, (cw1_irq_other _ iar h s ctx).1,
      (cw1_irq_other _ iar h s ctx).2.1, by simpa using hs, by simpa using ht, ?_⟩
    simp [cw1.hilevel_handler_irq, cw1.reg_write, cw1.reg_read, h]
  · rw [hs, List.drop_left]
    by_cases h : iar = GIC_SOURCE_TIMER0
    · simp [h]
    · simp [h]

theorem irq_schedules_iff_timer_witness :
    ((cw1.hilevel_handler_irq 36 36
        (cw1.hilevel_handler_rst cw1.sym_ex cw1.state_zero ctx_zero).1 ctx_ex).1.executing
      = (cw1.scheduler
          (cw1.hilevel_handler_rst cw1.sym_ex cw1.state_zero ctx_zero).1 ctx_ex).1.executing) ∧
    ((cw1.hilevel_handler_irq 36 37
        (cw1.hilevel_handler_rst cw1.sym_ex cw1.state_zero ctx_zero).1 ctx_ex).2 = ctx_ex) :=
  ⟨((irq_schedules_iff_timer 36 36 _ ctx_ex).1 rfl).2.2.1,
   ((irq_schedules_iff_timer 36 37 _ ctx_ex).2.1 (by decide)).1⟩

/-! ## The phases of the cw1 reset handler -/

theorem cw1_rst_timer_trace (s : cw1.state_t) :
    (cw1.rst_timer s).trace = s.trace ++
      [event_t.wr reg_t.TIMER0_Timer1Load 0x00100000,
       event_t.wr reg_t.TIMER0_Timer1Ctrl 0x02,
       event_t.rd reg_t.TIMER0_Timer1Ctrl 0x02,
       event_t.wr reg_t.TIMER0_Timer1Ctrl 0x42,
       event_t.rd reg_t.TIMER0_Timer1Ctrl 0x42,
       event_t.wr reg_t.TIMER0_Timer1Ctrl 0x62,
       event_t.rd reg_t.TIMER0_Timer1Ctrl 0x62,
       event_t.wr reg_t.TIMER0_Timer1Ctrl 0xE2] := by
  simp [cw1.rst_timer, cw1.reg_write, cw1.reg_or]

theorem cw1_rst_timer_regs (s : cw1.state_t) :
    (cw1.rst_timer s).regs reg_t.TIMER0_Timer1Load = 0x00100000 ∧
    (cw1.rst_timer s).regs reg_t.TIMER0_Timer1Ctrl = 0xE2 ∧
    (cw1.rst_timer s).regs reg_t.GICD0_ISENABLER1 = s.regs reg_t.GICD0_ISENABLER1 := by
  simp [cw1.rst_timer, cw1.reg_write, cw1.reg_or]

theorem cw1_rst_gic_trace (s : cw1.state_t) :
    (cw1.rst_gic s).trace = s.trace ++
      [event_t.wr reg_t.GICC0_PMR 0xF0,
       event_t.rd reg_t.GICD0_ISENABLER1 (s.regs reg_t.GICD0_ISENABLER1),
       event_t.wr reg_t.GICD0_ISENABLER1 (s.regs reg_t.GICD0_ISENABLER1 ||| 0x10),
       event_t.wr reg_t.GICC0_CTLR 0x01,
       event_t.wr reg_t.GICD0_CTLR 0x01] := by
  simp [cw1.rst_gic, cw1.reg_write, cw1.reg_or]

theorem cw1_rst_gic_regs (s : cw1.state_t) :
    (cw1.rst_gic s).regs reg_t.TIMER0_Timer1Load = s.regs reg_t.TIMER0_Timer1Load ∧
    (cw1.rst_gic s).regs reg_t.TIMER0_Timer1Ctrl = s.regs reg_t.TIMER0_Timer1Ctrl ∧
    (cw1.rst_gic s).regs reg_t.GICC0_PMR = 0xF0 ∧
    (cw1.rst_gic s).regs reg_t.GICD0_ISENABLER1 = s.regs reg_t.GICD0_ISENABLER1 ||| 0x10 ∧
    (cw1.rst_gic s).regs reg_t.GICC0_CTLR = 0x01 ∧
    (cw1.rst_gic s).regs reg_t.GICD0_CTLR = 0x01 := by
  simp [cw1.rst_gic, cw1.reg_write, cw1.reg_or]

theorem cw1_rst_devices_keep_table (s : cw1.state_t) :
    (cw1.rst_gic (cw1.rst_timer s)).pcb = s.pcb ∧
    (cw1.rst_gic (cw1.rst_timer s)).executing = s.executing := by
  simp [cw1.rst_gic, cw1.rst_timer, cw1.reg_write, cw1.reg_or]

theorem cw1_rst_pcbs_table (sym : cw1.symbols_t) (s : cw1.state_t) :
    (cw1.rst_pcbs sym s).pcb 0 = pcb_init 3 sym.main_P3 sym.tos_P3 ∧
    (cw1.rst_pcbs sym s).pcb 1 = pcb_init 4 sym.main_P4 sym.tos_P4 ∧
    (cw1.rst_pcbs sym s).pcb 2 = pcb_init 5 sym.main_P5 sym.tos_P5 ∧
    (cw1.rst_pcbs sym s).executing = s.executing ∧
    (cw1.rst_pcbs sym s).regs = s.regs ∧
    (cw1.rst_pcbs sym s).trace = s.trace := by
  simp [cw1.rst_pcbs]

theorem cw1_int_enable_irq_frame (s : cw1.state_t) :
    (cw1.int_enable_irq s).pcb = s.pcb ∧
    (cw1.int_enable_irq s).executing = s.executing ∧
    (cw1.int_enable_irq s).regs = s.regs ∧
    (cw1.int_enable_irq s).trace = s.trace ++ [event_t.int_enable_irq] :=
  ⟨rfl, rfl, rfl, rfl⟩

theorem cw1_rst_select_effect (s : cw1.state_t) (ctx : ctx_t) :
    (cw1.rst_select s ctx).1.pcb = set_status s.pcb 0 status_t.STATUS_EXECUTING ∧
    (cw1.rst_select s ctx).1.executing = 3 ∧
    (cw1.rst_select s ctx).1.regs = s.regs ∧
    (cw1.rst_select s ctx).1.trace = s.trace ∧
    (cw1.rst_select s ctx).2 = (s.pcb 0).ctx :=
  ⟨rfl, rfl, rfl, rfl, rfl⟩

theorem cw1_rst_phase_steps (sym : cw1.symbols_t) (s : cw1.state_t) (ctx : ctx_t) :
    (cw1.rst_timer s).steps = s.steps ++
      [step_t.dev (event_t.wr reg_t.TIMER0_Timer1Load 0x00100000),
       step_t.dev (event_t.wr reg_t.TIMER0_Timer1Ctrl 0x02),
       step_t.dev (event_t.rd reg_t.TIMER0_Timer1Ctrl 0x02),
       step_t.dev (event_t.wr reg_t.TIMER0_Timer1Ctrl 0x42),
       step_t.dev (event_t.rd reg_t.TIMER0_Timer1Ctrl 0x42),
       step_t.dev (event_t.wr reg_t.TIMER0_Timer1Ctrl 0x62),
       step_t.dev (event_t.rd reg_t.TIMER0_Timer1Ctrl 0x62),
       step_t.dev (event_t.wr reg_t.TIMER0_Timer1Ctrl 0xE2)] ∧
    (cw1.rst_gic s).steps = s.steps ++
      [step_t.dev (event_t.wr reg_t.GICC0_PMR 0xF0),
       step_t.dev (event_t.rd reg_t.GICD0_ISENABLER1 (s.regs reg_t.GICD0_ISENABLER1)),
       step_t.dev (event_t.wr reg_t.GICD0_ISENABLER1 (s.regs reg_t.GICD0_ISENABLER1 ||| 0x10)),
       step_t.dev (event_t.wr reg_t.GICC0_CTLR 0x01),
       step_t.dev (event_t.wr reg_t.GICD0_CTLR 0x01)] ∧
    (cw1.rst_pcbs sym s).steps
      = s.steps ++ [step_t.pcb_init 0, step_t.pcb_init 1, step_t.pcb_init 2] ∧
    (cw1.int_enable_irq s).steps = s.steps ++ [step_t.dev event_t.int_enable_irq] ∧
    (cw1.rst_select s ctx).1.steps = s.steps ++ [step_t.restore 0] := by
  refine ⟨?_, ?_, rfl, rfl, rfl⟩
  · simp [cw1.rst_timer, cw1.reg_write, cw1.reg_or]
  · simp [cw1.rst_gic, cw1.reg_write, cw1.reg_or]

theorem cw1_rst_steps (sym : cw1.symbols_t) (s : cw1.state_t) (ctx : ctx_t) :
    (cw1.hilevel_handler_rst sym s ctx).1.steps = s.steps ++
      [step_t.dev (event_t.wr reg_t.TIMER0_Timer1Load 0x00100000),
       step_t.dev (event_t.wr reg_t.TIMER0_Timer1Ctrl 0x02),
       step_t.dev (event_t.rd reg_t.TIMER0_Timer1Ctrl 0x02),
       step_t.dev (event_t.wr reg_t.TIMER0_Timer1Ctrl 0x42),
       step_t.dev (event_t.rd reg_t.TIMER0_Timer1Ctrl 0x42),
       step_t.dev (event_t.wr reg_t.TIMER0_Timer1Ctrl 0x62),
       step_t.dev (event_t.rd reg_t.TIMER0_Timer1Ctrl 0x62),
       step_t.dev (event_t.wr reg_t.TIMER0_Timer1Ctrl 0xE2),
       step_t.dev (event_t.wr reg_t.GICC0_PMR 0xF0),
       step_t.dev (event_t.rd reg_t.GICD0_ISENABLER1 (s.regs reg_t.GICD0_ISENABLER1)),
       step_t.dev (event_t.wr reg_t.GICD0_ISENABLER1 (s.regs reg_t.GICD0_ISENABLER1 ||| 0x10)),
       step_t.dev (event_t.wr reg_t.GICC0_CTLR 0x01),
       step_t.dev (event_t.wr reg_t.GICD0_CTLR 0x01),
       step_t.pcb_init 0,
       step_t.pcb_init 1,
       step_t.pcb_init 2,
       step_t.dev event_t.int_enable_irq,
       step_t.restore 0] := by
  show (cw1.rst_select (cw1.int_enable_irq
    (cw1.rst_pcbs sym (cw1.rst_gic (cw1.rst_timer s)))) ctx).1.steps = _
  rw [(cw1_rst_phase_steps sym _ ctx).2.2.2.2, (cw1_rst_phase_steps sym _ ctx).2.2.2.1,
    (cw1_rst_phase_steps sym _ ctx).2.2.1, (cw1_rst_phase_steps sym _ ctx).2.1,
    (cw1_rst_phase_steps sym s ctx).1, (cw1_rst_timer_regs s).2.2]
  simp

theorem isenabler_bits (v b : Nat) : (v ||| 0x10).testBit b = (decide (b = 4) || v.testBit b) := by
  have h : (2 ^ 4 : Nat).testBit b = decide (4 = b) := Nat.testBit_two_pow
  have h4 : decide (4 = b) = decide (b = 4) := decide_eq_decide.mpr ⟨Eq.symm, Eq.symm⟩
  rw [Nat.testBit_or, Bool.or_comm, ← h4, ← h]
  rfl

theorem cw1_rst_trace (sym : cw1.symbols_t) (s : cw1.state_t) (ctx : ctx_t) :
    (cw1.hilevel_handler_rst sym s ctx).1.trace = s.trace ++
      [event_t.wr reg_t.TIMER0_Timer1Load 0x00100000,
       event_t.wr reg_t.TIMER0_Timer1Ctrl 0x02,
       event_t.rd reg_t.TIMER0_Timer1Ctrl 0x02,
       event_t.wr reg_t.TIMER0_Timer1Ctrl 0x42,
       event_t.rd reg_t.TIMER0_Timer1Ctrl 0x42,
       event_t.wr reg_t.TIMER0_Timer1Ctrl 0x62,
       event_t.rd reg_t.TIMER0_Timer1Ctrl 0x62,
       event_t.wr reg_t.TIMER0_Timer1Ctrl 0xE2,
       event_t.wr reg_t.GICC0_PMR 0xF0,
       event_t.rd reg_t.GICD0_ISENABLER1 (s.regs reg_t.GICD0_ISENABLER1),
       event_t.wr reg_t.GICD0_ISENABLER1 (s.regs reg_t.GICD0_ISENABLER1 ||| 0x10),
       event_t.wr reg_t.GICC0_CTLR 0x01,
       event_t.wr reg_t.GICD0_CTLR 0x01,
       event_t.int_enable_irq] := by
  show (cw1.int_enable_irq (cw1.rst_pcbs sym (cw1.rst_gic (cw1.rst_timer s)))).trace = _
  rw [(cw1_int_enable_irq_frame _).2.2.2, (cw1_rst_pcbs_table _ _).2.2.2.2.2,
    cw1_rst_gic_trace, cw1_rst_timer_trace, (cw1_rst_timer_regs s).2.2]
  simp

/-- C17, as stated, fails in lab3: its reset handler configures no timer and
no interrupt controller and never enables interrupt delivery; it performs no
device access at all, its only steps being the initialisation of the two
PCBs and the restore of `pcb[0]`. -/
theorem lab3_reset_configures_no_device :
    (lab3.hilevel_handler_rst lab3.sym_ex lab3.state_zero ctx_zero).1.trace = [] ∧
    event_t.wr reg_t.TIMER0_Timer1Load 0x00100000
      ∉ (lab3.hilevel_handler_rst lab3.sym_ex lab3.state_zero ctx_zero).1.trace ∧
    (lab3.hilevel_handler_rst lab3.sym_ex lab3.state_zero ctx_zero).1.steps
      = [step_t.pcb_init 0, step_t.pcb_init 1, step_t.restore 0] := by
  have h : (lab3.hilevel_handler_rst lab3.sym_ex lab3.state_zero ctx_zero).1.trace = [] := rfl
  refine ⟨h, ?_, rfl⟩
  rw [h]
  exact List.not_mem_nil _

/-- C17 (amended): the reset handler of cw1 performs its steps in the
specified order.  The steps it performs, in program order, are: the timer
configuration (reload value `0x00100000`, control register ending at
`0xE2`), then the interrupt-controller configuration (priority mask `0xF0`,
bit `0x10` set in `ISENABLER1` with all its other bits preserved, CPU
interface and distributor enabled), then the initialisation of `pcb[0]`,
`pcb[1]`, `pcb[2]`, then `int_enable_irq()`, and only then the restore of
`pcb[0]`.  With `s1`, `s2`, `s3`, `s4` the states after the four leading
phases: the process table and cursor are untouched while the devices are
configured; the table initialisation leaves every PCB READY and accesses no
device; enabling interrupts leaves the table all READY and the cursor not
yet set; the restore marks table index `0` EXECUTING, sets the cursor and
copies `pcb[0].ctx` into the live context.  The reset handler of lab3
performs only the initialisation of `pcb[0]`, `pcb[1]` and then the restore
of `pcb[0]`, with no device access. -/
theorem reset_steps_in_order :
    (∀ (sym : cw1.symbols_t) (s : cw1.state_t) (ctx : ctx_t),
      (cw1.hilevel_handler_rst sym s ctx).1.steps = s.steps ++
        [step_t.dev (event_t.wr reg_t.TIMER0_Timer1Load 0x00100000),
         step_t.dev (event_t.wr reg_t.TIMER0_Timer1Ctrl 0x02),
         step_t.dev (event_t.rd reg_t.TIMER0_Timer1Ctrl 0x02),
         step_t.dev (event_t.wr reg_t.TIMER0_Timer1Ctrl 0x42),
         step_t.dev (event_t.rd reg_t.TIMER0_Timer1Ctrl 0x42),
         step_t.dev (event_t.wr reg_t.TIMER0_Timer1Ctrl 0x62),
         step_t.dev (event_t.rd reg_t.TIMER0_Timer1Ctrl 0x62),
         step_t.dev (event_t.wr reg_t.TIMER0_Timer1Ctrl 0xE2),
         step_t.dev (event_t.wr reg_t.GICC0_PMR 0xF0),
         step_t.dev (event_t.rd reg_t.GICD0_ISENABLER1 (s.regs reg_t.GICD0_ISENABLER1)),
         step_t.dev
           (event_t.wr reg_t.GICD0_ISENABLER1 (s.regs reg_t.GICD0_ISENABLER1 ||| 0x10)),
         step_t.dev (event_t.wr reg_t.GICC0_CTLR 0x01),
         step_t.dev (event_t.wr reg_t.GICD0_CTLR 0x01),
         step_t.pcb_init 0,
         step_t.pcb_init 1,
         step_t.pcb_init 2,
         step_t.dev event_t.int_enable_irq,
         step_t.restore 0] ∧
      ∃ s1 s2 s3 s4 : cw1.state_t,
        s1 = cw1.rst_timer s ∧ s2 = cw1.rst_gic s1 ∧ s3 = cw1.rst_pcbs sym s2 ∧
        s4 = cw1.int_enable_irq s3 ∧
        cw1.hilevel_handler_rst sym s ctx = cw1.rst_select s4 ctx ∧
        s1.trace = s.trace ++
          [event_t.wr reg_t.TIMER0_Timer1Load 0x00100000,
           event_t.wr reg_t.TIMER0_Timer1Ctrl 0x02,
           event_t.rd reg_t.TIMER0_Timer1Ctrl 0x02,
           event_t.wr reg_t.TIMER0_Timer1Ctrl 0x42,
           event_t.rd reg_t.TIMER0_Timer1Ctrl 0x42,
           event_t.wr reg_t.TIMER0_Timer1Ctrl 0x62,
           event_t.rd reg_t.TIMER0_Timer1Ctrl 0x62,
           event_t.wr reg_t.TIMER0_Timer1Ctrl 0xE2] ∧
        s2.trace = s1.trace ++
          [event_t.wr reg_t.GICC0_PMR 0xF0,
           event_t.rd reg_t.GICD0_ISENABLER1 (s.regs reg_t.GICD0_ISENABLER1),
           event_t.wr reg_t.GICD0_ISENABLER1 (s.regs reg_t.GICD0_ISENABLER1 ||| 0x10),
           event_t.wr reg_t.GICC0_CTLR 0x01,
           event_t.wr reg_t.GICD0_CTLR 0x01] ∧
        s2.regs reg_t.TIMER0_Timer1Load = 0x00100000 ∧
        s2.regs reg_t.TIMER0_Timer1Ctrl = 0xE2 ∧
        s2.regs reg_t.GICC0_PMR = 0xF0 ∧
        s2.regs reg_t.GICD0_ISENABLER1 = s.regs reg_t.GICD0_ISENABLER1 ||| 0x10 ∧
        (∀ b : Nat, (s2.regs reg_t.GICD0_ISENABLER1).testBit b
          = (decide (b = 4) || (s.regs reg_t.GICD0_ISENABLER1).testBit b)) ∧
        s2.regs reg_t.GICC0_CTLR = 0x01 ∧
        s2.regs reg_t.GICD0_CTLR = 0x01 ∧
        s2.pcb = s.pcb ∧ s2.executing = s.executing ∧
        s3.steps = s2.steps ++ [step_t.pcb_init 0, step_t.pcb_init 1, step_t.pcb_init 2] ∧
        s4.steps = s3.steps ++ [step_t.dev event_t.int_enable_irq] ∧
        (cw1.hilevel_handler_rst sym s ctx).1.steps = s4.steps ++ [step_t.restore 0] ∧
        s3.trace = s2.trace ∧ s3.regs = s2.regs ∧ s3.executing = s.executing ∧
        s3.pcb 0 = pcb_init 3 sym.main_P3 sym.tos_P3 ∧
        s3.pcb 1 = pcb_init 4 sym.main_P4 sym.tos_P4 ∧
        s3.pcb 2 = pcb_init 5 sym.main_P5 sym.tos_P5 ∧
        s4.trace = s3.trace ++ [event_t.int_enable_irq] ∧
        s4.regs = s3.regs ∧ s4.pcb = s3.pcb ∧ s4.executing = s.executing ∧
        (cw1.hilevel_handler_rst sym s ctx).1.trace = s4.trace ∧
        (cw1.hilevel_handler_rst sym s ctx).1.regs = s4.regs ∧
        (cw1.hilevel_handler_rst sym s ctx).1.pcb
          = set_status s4.pcb 0 status_t.STATUS_EXECUTING ∧
        (cw1.hilevel_handler_rst sym s ctx).1.executing = 3 ∧
        (cw1.hilevel_handler_rst sym s ctx).2 = (s4.pcb 0).ctx ∧
        (cw1.hilevel_handler_rst sym s ctx).1.trace = s.trace ++
          [event_t.wr reg_t.TIMER0_Timer1Load 0x00100000,
           event_t.wr reg_t.TIMER0_Timer1Ctrl 0x02,
           event_t.rd reg_t.TIMER0_Timer1Ctrl 0x02,
           event_t.wr reg_t.TIMER0_Timer1Ctrl 0x42,
           event_t.rd reg_t.TIMER0_Timer1Ctrl 0x42,
           event_t.wr reg_t.TIMER0_Timer1Ctrl 0x62,
           event_t.rd reg_t.TIMER0_Timer1Ctrl 0x62,
           event_t.wr reg_t.TIMER0_Timer1Ctrl 0xE2,
           event_t.wr reg_t.GICC0_PMR 0xF0,
           event_t.rd reg_t.GICD0_ISENABLER1 (s.regs reg_t.GICD0_ISENABLER1),
           event_t.wr reg_t.GICD0_ISENABLER1 (s.regs reg_t.GICD0_ISENABLER1 ||| 0x10),
           event_t.wr reg_t.GICC0_CTLR 0x01,
           event_t.wr reg_t.GICD0_CTLR 0x01,
           event_t.int_enable_irq]) ∧
    (∀ (sym : lab3.symbols_t) (s : lab3.state_t) (ctx : ctx_t),
      (lab3.hilevel_handler_rst sym s ctx).1.steps
        = s.steps ++ [step_t.pcb_init 0, step_t.pcb_init 1, step_t.restore 0] ∧
      (lab3.hilevel_handler_rst sym s ctx).1.trace = s.trace ∧
      ((lab3.hilevel_handler_rst sym s ctx).1.pcb 0).status = status_t.STATUS_EXECUTING ∧
      (lab3.hilevel_handler_rst sym s ctx).1.executing = 0 ∧
      (lab3.hilevel_handler_rst sym s ctx).2 = (pcb_init 1 sym.main_P1 sym.tos_P1).ctx) := by
  constructor
  · intro sym s ctx
    refine ⟨cw1_rst_steps sym s ctx, _, _, _, _, rfl, rfl, rfl, rfl, rfl,
      cw1_rst_timer_trace s, ?_, ?_⟩
    · have h := cw1_rst_gic_trace (cw1.rst_timer s)
      rw [(cw1_rst_timer_regs s).2.2] at h
      exact h
    · obtain ⟨t1, t2, t3⟩ := cw1_rst_timer_regs s
      obtain ⟨g1, g2, g3, g4, g5, g6⟩ := cw1_rst_gic_regs (cw1.rst_timer s)
      obtain ⟨p1, p2, p3, p4, p5, p6⟩ :=
        cw1_rst_pcbs_table sym (cw1.rst_gic (cw1.rst_timer s))
      obtain ⟨d1, d2⟩ := cw1_rst_devices_keep_table s
      rw [t3] at g4
      refine ⟨g1.trans t1, g2.trans t2, g3, g4, ?_, g5, g6, d1, d2, rfl, rfl, rfl,
        p6, p5, p4.trans d2,
        p1, p2, p3, rfl, rfl, rfl, p4.trans d2, rfl, rfl, rfl, rfl, rfl,
        cw1_rst_trace sym s ctx⟩
      intro b
      rw [g4]
      exact isenabler_bits _ b
  · intro sym s ctx
    refine ⟨rfl, rfl, ?_, rfl, ?_⟩
    · simp [lab3.hilevel_handler_rst, set_status]
    · simp [lab3.hilevel_handler_rst, memcpy_ctx]

/-- C18: in both variants, when `executing` holds a value that designates no
table entry (anything other than `0` or `1` in lab3; anything other than
`3`, `4` or `5` in cw1, `0`, `1` and `2` included), `scheduler` is a complete
no-op: the live context, every PCB, `executing` and the rest of the state
are unchanged; hence any number of further scheduler invocations, on any
live contexts, leaves the state as it is. -/
theorem scheduler_noop_on_invalid_cursor :
    (∀ (s : lab3.state_t) (c : ctx_t), s.executing ≠ 0 → s.executing ≠ 1 →
      lab3.scheduler s c = (s, c) ∧ ∀ (cs : Nat → ctx_t) (k : Nat), lab3.run cs k s = s) ∧
    (∀ (s : cw1.state_t) (c : ctx_t), s.executing ≠ 3 → s.executing ≠ 4 → s.executing ≠ 5 →
      cw1.scheduler s c = (s, c) ∧ ∀ (cs : Nat → ctx_t) (k : Nat), cw1.run cs k s = s) := by
  constructor
  · intro s c h0 h1
    refine ⟨lab3_scheduler_noop s c h0 h1, fun cs k => ?_⟩
    induction k with
    | zero => rfl
    | succ k ih =>
      show (lab3.scheduler (lab3.run cs k s) (cs k)).1 = s
      rw [ih, lab3_scheduler_noop s (cs k) h0 h1]
  · intro s c h3 h4 h5
    refine ⟨cw1_scheduler_noop s c h3 h4 h5, fun cs k => ?_⟩
    induction k with
    | zero => rfl
    | succ k ih =>
      show (cw1.scheduler (cw1.run cs k s) (cs k)).1 = s
      rw [ih, cw1_scheduler_noop s (cs k) h3 h4 h5]

theorem scheduler_noop_on_invalid_cursor_witness :
    (lab3.scheduler { lab3.state_zero with executing := 2 } ctx_ex
        = ({ lab3.state_zero with executing := 2 }, ctx_ex)) ∧
    (cw1.state_cursor_zero.executing = 0 ∧
      cw1.scheduler cw1.state_cursor_zero ctx_ex = (cw1.state_cursor_zero, ctx_ex) ∧
      cw1.run (fun _ => ctx_ex) 7 cw1.state_cursor_zero = cw1.state_cursor_zero) :=
  ⟨(scheduler_noop_on_invalid_cursor.1 { lab3.state_zero with executing := 2 } ctx_ex
      (by decide) (by decide)).1,
   rfl,
   (scheduler_noop_on_invalid_cursor.2 cw1.state_cursor_zero ctx_ex
      (by decide) (by decide) (by decide)).1,
   (scheduler_noop_on_invalid_cursor.2 cw1.state_cursor_zero ctx_ex
      (by decide) (by decide) (by decide)).2 (fun _ => ctx_ex) 7⟩

/-- C19: in both variants `hilevel_handler_rst` is deterministic with respect
to the kernel state it leaves: for any two prior states and caller-supplied
live contexts, the resulting process table, cursor and live context are
identical, so no field of a PCB or of the live context survives a reset; and
resetting twice leaves the same process table, cursor and live context as
resetting once. -/
theorem reset_forgets_prior_state :
    (∀ (sym : lab3.symbols_t) (s1 s2 : lab3.state_t) (c1 c2 : ctx_t),
      (lab3.hilevel_handler_rst sym s1 c1).1.pcb = (lab3.hilevel_handler_rst sym s2 c2).1.pcb ∧
      (lab3.hilevel_handler_rst sym s1 c1).1.executing
        = (lab3.hilevel_handler_rst sym s2 c2).1.executing ∧
      (lab3.hilevel_handler_rst sym s1 c1).2 = (lab3.hilevel_handler_rst sym s2 c2).2 ∧
      (lab3.hilevel_handler_rst sym (lab3.hilevel_handler_rst sym s1 c1).1
          (lab3.hilevel_handler_rst sym s1 c1).2).1.pcb
        = (lab3.hilevel_handler_rst sym s1 c1).1.pcb ∧
      (lab3.hilevel_handler_rst sym (lab3.hilevel_handler_rst sym s1 c1).1
          (lab3.hilevel_handler_rst sym s1 c1).2).1.executing
        = (lab3.hilevel_handler_rst sym s1 c1).1.executing ∧
      (lab3.hilevel_handler_rst sym (lab3.hilevel_handler_rst sym s1 c1).1
          (lab3.hilevel_handler_rst sym s1 c1).2).2
        = (lab3.hilevel_handler_rst sym s1 c1).2) ∧
    (∀ (sym : cw1.symbols_t) (s1 s2 : cw1.state_t) (c1 c2 : ctx_t),
      (cw1.hilevel_handler_rst sym s1 c1).1.pcb = (cw1.hilevel_handler_rst sym s2 c2).1.pcb ∧
      (cw1.hilevel_handler_rst sym s1 c1).1.executing
        = (cw1.hilevel_handler_rst sym s2 c2).1.executing ∧
      (cw1.hilevel_handler_rst sym s1 c1).2 = (cw1.hilevel_handler_rst sym s2 c2).2 ∧
      (cw1.hilevel_handler_rst sym (cw1.hilevel_handler_rst sym s1 c1).1
          (cw1.hilevel_handler_rst sym s1 c1).2).1.pcb
        = (cw1.hilevel_handler_rst sym s1 c1).1.pcb ∧
      (cw1.hilevel_handler_rst sym (cw1.hilevel_handler_rst sym s1 c1).1
          (cw1.hilevel_handler_rst sym s1 c1).2).1.executing
        = (cw1.hilevel_handler_rst sym s1 c1).1.executing ∧
      (cw1.hilevel_handler_rst sym (cw1.hilevel_handler_rst sym s1 c1).1
          (cw1.hilevel_handler_rst sym s1 c1).2).2
        = (cw1.hilevel_handler_rst sym s1 c1).2) := by
  have hl : ∀ (sym : lab3.symbols_t) (s1 s2 : lab3.state_t) (c1 c2 : ctx_t),
      (lab3.hilevel_handler_rst sym s1 c1).1.pcb = (lab3.hilevel_handler_rst sym s2 c2).1.pcb ∧
      (lab3.hilevel_handler_rst sym s1 c1).1.executing
        = (lab3.hilevel_handler_rst sym s2 c2).1.executing ∧
      (lab3.hilevel_handler_rst sym s1 c1).2 = (lab3.hilevel_handler_rst sym s2 c2).2 := by
    intro sym s1 s2 c1 c2
    refine ⟨?_, rfl, ?_⟩
    · funext j
      fin_cases j <;> simp [lab3.hilevel_handler_rst, set_status]
    · simp [lab3.hilevel_handler_rst, memcpy_ctx]
  have hc : ∀ (sym : cw1.symbols_t) (s1 s2 : cw1.state_t) (c1 c2 : ctx_t),
      (cw1.hilevel_handler_rst sym s1 c1).1.pcb = (cw1.hilevel_handler_rst sym s2 c2).1.pcb ∧
      (cw1.hilevel_handler_rst sym s1 c1).1.executing
        = (cw1.hilevel_handler_rst sym s2 c2).1.executing ∧
      (cw1.hilevel_handler_rst sym s1 c1).2 = (cw1.hilevel_handler_rst sym s2 c2).2 := by
    intro sym s1 s2 c1 c2
    refine ⟨?_, rfl, ?_⟩
    · funext j
      fin_cases j <;>
        simp [cw1.hilevel_handler_rst, cw1.rst_select, cw1.int_enable_irq, cw1.rst_pcbs,
          set_status]
    · simp [cw1.hilevel_handler_rst, cw1.rst_select, cw1.int_enable_irq, cw1.rst_pcbs,
        memcpy_ctx]
  constructor
  · intro sym s1 s2 c1 c2
    obtain ⟨a1, a2, a3⟩ := hl sym s1 s2 c1 c2
    obtain ⟨b1, b2, b3⟩ := hl sym (lab3.hilevel_handler_rst sym s1 c1).1 s1
      (lab3.hilevel_handler_rst sym s1 c1).2 c1
    exact ⟨a1, a2, a3, b1, b2, b3⟩
  · intro sym s1 s2 c1 c2
    obtain ⟨a1, a2, a3⟩ := hc sym s1 s2 c1 c2
    obtain ⟨b1, b2, b3⟩ := hc sym (cw1.hilevel_handler_rst sym s1 c1).1 s1
      (cw1.hilevel_handler_rst sym s1 c1).2 c1
    exact ⟨a1, a2, a3, b1, b2, b3⟩
